import Mathlib

/-!
# React dashboard: the content store of `backend/server.js`

A shallow embedding of the Express handlers that read and mutate the single
in-memory record `componentData`. Request bodies are JSON values; a handler
is a function from the record and the request body to the response and the
record it leaves behind. Mutations made before a handler returns early or
throws stay in the record, exactly as the in-place assignments of the source
do.
-/

namespace Dashboard

/-! ## JSON values and the JavaScript operations the handlers use -/

/-- A JSON value as `express.json()` delivers it. Numbers are carried as
integers: the handlers only ever test a number for being zero. -/
inductive Json where
  | null
  | bool (b : Bool)
  | num (n : Int)
  | str (s : String)
  | arr (xs : List Json)
  | obj (kvs : List (String × Json))

/-- A JavaScript value read out of a body: `none` is `undefined`. -/
abbrev JsVal := Option Json

/-- The parsed request body `req.body`: a JSON object, as a key/value list
read by first match. (A top-level array carries none of the keys the
handlers read and behaves as the empty object.) -/
abbrev Body := List (String × Json)

/-- The results of `typeof` that occur on JSON data. -/
inductive JsType where
  | undefined
  | object
  | boolean
  | number
  | string
  deriving DecidableEq, Repr

/-- An exception thrown while a handler runs. -/
inductive JsError where
  | typeError (reading : String)
  deriving DecidableEq, Repr

/-- JavaScript truthiness of a JSON value. -/
def Json.truthy : Json → Bool
  | .null => false
  | .bool b => b
  | .num n => n != 0
  | .str s => s != ""
  | .arr _ => true
  | .obj _ => true

/-- Truthiness of a possibly undefined value. -/
def truthy : JsVal → Bool
  | none => false
  | some v => v.truthy

/-- The operator `typeof`: `null` and arrays are of type `object`. -/
def typeOf : JsVal → JsType
  | none => .undefined
  | some .null => .object
  | some (.bool _) => .boolean
  | some (.num _) => .number
  | some (.str _) => .string
  | some (.arr _) => .object
  | some (.obj _) => .object

/-- The test `Array.isArray`. -/
def isArray : JsVal → Bool
  | some (.arr _) => true
  | _ => false

/-- The elements of an array value (no elements for any other value). -/
def elements : JsVal → List Json
  | some (.arr xs) => xs
  | _ => []

/-- Property read `v.k` on a value that is not `null`: an object yields the
value stored under the key, every other value has none of the keys read by
the handlers. -/
def field : Json → String → JsVal
  | .obj kvs, k => kvs.lookup k
  | _, _ => none

/-- Property read `v.k` in general: reading a property of `null` throws a
`TypeError`. -/
def getProp : Json → String → Except JsError JsVal
  | .null, k => .error (.typeError k)
  | v, k => .ok (field v k)

/-- The method `Array.prototype.every` for a callback that may throw: elements
are visited in order, the first `false` stops the walk, an exception
propagates. -/
def every (p : Json → Except JsError Bool) : List Json → Except JsError Bool
  | [] => .ok true
  | x :: xs =>
    match p x with
    | .error e => .error e
    | .ok false => .ok false
    | .ok true => every p xs

/-! ## The record -/

/-- The `header` section of the record. -/
structure Header where
  title : Json
  imageUrl : Json

/-- The `footer` section of the record. -/
structure Footer where
  email : Json
  phone : Json
  address : Json

/-- The shape of the in-memory record `componentData`. -/
structure ComponentData where
  header : Header
  navbar : List Json
  footer : Footer

/-- A navigation link literal `{ label, url }`. -/
def navLink (label url : String) : Json :=
  .obj [("label", .str label), ("url", .str url)]

/-- The record the store holds at startup (`let componentData = ...`). -/
def componentData : ComponentData :=
  { header :=
      { title := .str "Welcome to My Dashboard"
        imageUrl := .str "https://via.placeholder.com/800x200?text=Header+Image" }
    navbar := [navLink "Home" "/", navLink "About" "/about", navLink "Contact" "/contact"]
    footer :=
      { email := .str "contact@example.com"
        phone := .str "+1 (555) 123-4567"
        address := .str "123 Main Street, City, Country" } }

/-! ## Responses -/

/-- The `data` member of a response. -/
inductive Data where
  | record (r : ComponentData)
  | header (h : Header)
  | navbar (links : List Json)
  | footer (f : Footer)

/-- A response: the HTTP status and the members of the JSON body. The
`timestamp` member is left out. -/
structure Response where
  status : Nat
  success : Bool
  message : Option String
  data : Option Data
  error : Option JsError

/-- The successful response `res.json(...)` with a message and data. -/
def okResponse (message : Option String) (d : Data) : Response :=
  { status := 200, success := true, message := message, data := some d, error := none }

/-- The response of a `catch` block: status 500 with the handler's message
and `error.message`. -/
def caughtResponse (message : String) (e : JsError) : Response :=
  { status := 500, success := false, message := some message, data := none, error := some e }

/-- The rejection of a malformed navbar. -/
def invalidNavbarResponse : Response :=
  { status := 400, success := false
    message := some "Invalid navbar format. Each link must have label and url strings."
    data := none, error := none }

/-! ## Handlers -/

/-- Field-level merge of a header update: each of `title`, `imageUrl` that is
not `undefined` overwrites the stored field. -/
def mergeHeader (h : Header) (title imageUrl : JsVal) : Header :=
  let h := match title with
    | some t => { h with title := t }
    | none => h
  match imageUrl with
  | some u => { h with imageUrl := u }
  | none => h

/-- Field-level merge of a footer update. -/
def mergeFooter (f : Footer) (email phone address : JsVal) : Footer :=
  let f := match email with
    | some e => { f with email := e }
    | none => f
  let f := match phone with
    | some p => { f with phone := p }
    | none => f
  match address with
  | some a => { f with address := a }
  | none => f

/-- The callback of the navbar validation:
`typeof link === 'object' && typeof link.label === 'string' && typeof link.url === 'string'`. -/
def linkCheck (link : Json) : Except JsError Bool :=
  if typeOf (some link) = .object then
    match getProp link "label" with
    | .error e => .error e
    | .ok label =>
      if typeOf label = .string then
        match getProp link "url" with
        | .error e => .error e
        | .ok url => .ok (decide (typeOf url = .string))
      else .ok false
  else .ok false

/-- GET /api/components. -/
def getComponents (cd : ComponentData) : Response × ComponentData :=
  ({ status := 200, success := true, message := none, data := some (.record cd),
     error := none }, cd)

/-- The `if (header)` block of POST /api/components. -/
def postHeaderStep (cd : ComponentData) (header : JsVal) : ComponentData :=
  match header with
  | some h =>
    if h.truthy then
      { cd with header := mergeHeader cd.header (field h "title") (field h "imageUrl") }
    else cd
  | none => cd

/-- The `if (footer)` block of POST /api/components. -/
def postFooterStep (cd : ComponentData) (footer : JsVal) : ComponentData :=
  match footer with
  | some f =>
    if f.truthy then
      { cd with footer :=
          mergeFooter cd.footer (field f "email") (field f "phone") (field f "address") }
    else cd
  | none => cd

/-- The tail of POST /api/components after the navbar block: the footer
block and the success response. -/
def postFinish (cd : ComponentData) (footer : JsVal) : Response × ComponentData :=
  let cd := postFooterStep cd footer
  (okResponse (some "Component data updated successfully") (.record cd), cd)

/-- POST /api/components: the header block, then the navbar block, then the
footer block, inside one `try`. -/
def postComponents (cd : ComponentData) (body : Body) : Response × ComponentData :=
  let header := body.lookup "header"
  let navbar := body.lookup "navbar"
  let footer := body.lookup "footer"
  let cd := postHeaderStep cd header
  if truthy navbar && isArray navbar then
    match every linkCheck (elements navbar) with
    | .error e => (caughtResponse "Failed to save component data" e, cd)
    | .ok false => (invalidNavbarResponse, cd)
    | .ok true => postFinish { cd with navbar := elements navbar } footer
  else postFinish cd footer

/-- PUT /api/components/header. -/
def putHeader (cd : ComponentData) (body : Body) : Response × ComponentData :=
  let header := mergeHeader cd.header (body.lookup "title") (body.lookup "imageUrl")
  let cd := { cd with header := header }
  (okResponse (some "Header updated successfully") (.header cd.header), cd)

/-- PUT /api/components/navbar. -/
def putNavbar (cd : ComponentData) (body : Body) : Response × ComponentData :=
  let links := body.lookup "links"
  let cd := if truthy links && isArray links then { cd with navbar := elements links } else cd
  (okResponse (some "Navbar updated successfully") (.navbar cd.navbar), cd)

/-- PUT /api/components/footer. -/
def putFooter (cd : ComponentData) (body : Body) : Response × ComponentData :=
  let footer :=
    mergeFooter cd.footer (body.lookup "email") (body.lookup "phone") (body.lookup "address")
  let cd := { cd with footer := footer }
  (okResponse (some "Footer updated successfully") (.footer cd.footer), cd)

/-- DELETE /api/components/reset: the record is reassigned to a fresh literal. -/
def deleteReset (_cd : ComponentData) : Response × ComponentData :=
  let cd : ComponentData :=
    { header :=
        { title := .str "Welcome to My Dashboard"
          imageUrl := .str "https://via.placeholder.com/800x200?text=Header+Image" }
      navbar := [navLink "Home" "/", navLink "About" "/about", navLink "Contact" "/contact"]
      footer :=
        { email := .str "contact@example.com"
          phone := .str "+1 (555) 123-4567"
          address := .str "123 Main Street, City, Country" } }
  (okResponse (some "Component data reset to defaults") (.record cd), cd)

/-! ## The payload of the client's save -/

/-- The client's working copy: the three sections it holds as JSON values
(`header`, `navbar`, `footer` of `AppContext.jsx`). -/
structure WorkingCopy where
  header : Json
  navbar : Json
  footer : Json

/-- The body `JSON.stringify({ header, navbar, footer })` that `saveToServer`
posts to the combined update. -/
def savePayload (w : WorkingCopy) : Body :=
  [("header", w.header), ("navbar", w.navbar), ("footer", w.footer)]

/-- A header as the JSON object `{ title, imageUrl }`. -/
def Header.toJson (h : Header) : Json :=
  .obj [("title", h.title), ("imageUrl", h.imageUrl)]

/-- A footer as the JSON object `{ email, phone, address }`. -/
def Footer.toJson (f : Footer) : Json :=
  .obj [("email", f.email), ("phone", f.phone), ("address", f.address)]

/-- The working copy that holds the full record `r`. -/
def ComponentData.toWorkingCopy (r : ComponentData) : WorkingCopy :=
  { header := r.header.toJson, navbar := .arr r.navbar, footer := r.footer.toJson }

/-! ## Shape predicates -/

/-- Whether a value is a string. -/
def isStr : JsVal → Bool
  | some (.str _) => true
  | _ => false

/-- A well-shaped link: an object whose `label` and `url` are both present
and strings. -/
def wellShapedLink : Json → Bool
  | .obj kvs => isStr (kvs.lookup "label") && isStr (kvs.lookup "url")
  | _ => false

/-- A well-formed full record: string header and footer fields and a navbar
of well-shaped links. -/
def WellFormed (r : ComponentData) : Prop :=
  isStr (some r.header.title) = true ∧ isStr (some r.header.imageUrl) = true ∧
  isStr (some r.footer.email) = true ∧ isStr (some r.footer.phone) = true ∧
  isStr (some r.footer.address) = true ∧ ∀ x ∈ r.navbar, wellShapedLink x = true

/-! ## Sequences of store operations -/

/-- A request to one of the writing routes of the store. -/
inductive StoreOp where
  | post (body : Body)
  | putHeader (body : Body)
  | putNavbar (body : Body)
  | putFooter (body : Body)
  | reset

/-- The handler that serves a request. -/
def StoreOp.handle (cd : ComponentData) : StoreOp → Response × ComponentData
  | .post body => postComponents cd body
  | .putHeader body => Dashboard.putHeader cd body
  | .putNavbar body => Dashboard.putNavbar cd body
  | .putFooter body => Dashboard.putFooter cd body
  | .reset => deleteReset cd

/-- The record after a sequence of requests, served one after the other. -/
def runStore (cd : ComponentData) : List StoreOp → ComponentData
  | [] => cd
  | op :: ops => runStore (op.handle cd).2 ops

/-- Whether every request of a sequence is answered with `success: true`. -/
def allAccepted (cd : ComponentData) : List StoreOp → Bool
  | [] => true
  | op :: ops => (op.handle cd).1.success && allAccepted (op.handle cd).2 ops

/-- Whether a request goes to PUT /api/components/navbar. -/
def StoreOp.isPutNavbar : StoreOp → Bool
  | .putNavbar _ => true
  | _ => false

/-! ## The client: transport (`services/apiService.js`) -/

/-- What the JavaScript engine fixes and the source does not: the text of
`String(v)` for a value that is not a string, and the message of the
`TypeError` raised by reading the property `k` of `null`. -/
structure Engine where
  toStr : Json → String
  nullRead : String → String

/-- The conversion `String(v)` that `new Error(v)` applies to its argument. -/
def stringOf (E : Engine) : Json → String
  | .str s => s
  | v => E.toStr v

/-- The text `error.message` of an exception raised in a handler. -/
def JsError.text (E : Engine) : JsError → String
  | .typeError k => E.nullRead k

/-- The `data` member as JSON. -/
def Data.toJson : Data → Json
  | .record r =>
    .obj [("header", r.header.toJson), ("navbar", .arr r.navbar), ("footer", r.footer.toJson)]
  | .header h => h.toJson
  | .navbar links => .arr links
  | .footer f => f.toJson

/-- An object member that is written only when its value is defined. -/
def optMember (k : String) : Option Json → List (String × Json)
  | some v => [(k, v)]
  | none => []

/-- The JSON body that `res.json(...)` sends for a response (without the
`timestamp` member). -/
def Response.toJson (E : Engine) (r : Response) : Json :=
  .obj ([("success", .bool r.success)] ++ optMember "message" (r.message.map .str) ++
    optMember "data" (r.data.map Data.toJson) ++
    optMember "error" (r.error.map (fun e => .str (e.text E))))

/-- What the call of `fetch` and the call of `response.json()` yield: either
`fetch` rejects with a message, or there is a response with a status whose
body parses to a value or makes `response.json()` reject with a message. -/
inductive FetchOutcome where
  | networkError (message : String)
  | reply (status : Nat) (body : Except String Json)

/-- An `Error` object in flight, by its `message`. -/
structure Thrown where
  message : String

/-- The flag `response.ok`: the status is in the range 200 to 299. -/
def responseOk (status : Nat) : Bool :=
  decide (200 ≤ status) && decide (status ≤ 299)

/-- The common body of the functions of `apiService.js`: a response that is
not ok throws `new Error(errorData.message || fallback)`, where `errorData` is
the parsed body or the empty object when parsing fails; an ok response yields
its parsed body. Every exception is logged and thrown again. -/
def awaitJson (E : Engine) (fallback : String) : FetchOutcome → Except Thrown Json
  | .networkError m => .error ⟨m⟩
  | .reply status body =>
    if !responseOk status then
      let errorData : Json := match body with
        | .ok v => v
        | .error _ => .obj []
      match getProp errorData "message" with
      | .error e => .error ⟨e.text E⟩
      | .ok (some m) => if m.truthy then .error ⟨stringOf E m⟩ else .error ⟨fallback⟩
      | .ok none => .error ⟨fallback⟩
    else
      match body with
      | .ok v => .ok v
      | .error m => .error ⟨m⟩

/-- The function `fetchComponentData` (GET /api/components). -/
def fetchComponentData (E : Engine) (o : FetchOutcome) : Except Thrown Json :=
  awaitJson E "Failed to fetch component data" o

/-- The function `saveComponentData` (POST /api/components). -/
def saveComponentData (E : Engine) (o : FetchOutcome) : Except Thrown Json :=
  awaitJson E "Failed to save component data" o

/-- The exchange seen from the client when the store answers with `r`: the
status and the JSON body of `r`. -/
def deliver (E : Engine) (r : Response) : FetchOutcome :=
  .reply r.status (.ok (r.toJson E))

/-! ## The client: state and operations (`context/AppContext.jsx`) -/

/-- The state of `AppProvider`: the working copy and the status of the most
recent remote operation. -/
structure Client where
  copy : WorkingCopy
  loading : Bool
  error : Option String
  lastSaved : Option String

/-- The literal `defaultHeader`. -/
def defaultHeader : Json :=
  .obj [("title", .str "Welcome to My Dashboard"),
    ("imageUrl", .str "https://via.placeholder.com/800x200?text=Header+Image")]

/-- The literal `defaultNavbar`. -/
def defaultNavbar : Json :=
  .arr [navLink "Home" "/", navLink "About" "/about", navLink "Contact" "/contact"]

/-- The literal `defaultFooter`. -/
def defaultFooter : Json :=
  .obj [("email", .str "contact@example.com"), ("phone", .str "+1 (555) 123-4567"),
    ("address", .str "123 Main Street, City, Country")]

/-- The own enumerable properties that an object spread copies from a value. -/
def ownEntries : Json → List (String × Json)
  | .obj kvs => kvs
  | .arr xs => xs.enum.map (fun p => (toString p.1, p.2))
  | .str s => s.toList.enum.map (fun p => (toString p.1, .str (String.singleton p.2)))
  | _ => []

/-- The object `{ ...prev, ...u }`. An object is read by first match, so the
entries of the later spread stand first. -/
def objectSpread (prev u : Json) : Json :=
  .obj (ownEntries u ++ ownEntries prev)

/-- A call of one of the state setters of `AppProvider`. -/
inductive Action where
  | setLoading (b : Bool)
  | setError (e : Option String)
  | setLastSaved (t : String)
  | setHeader (v : Json)
  | setNavbar (v : Json)
  | setFooter (v : Json)
  | spreadHeader (u : Json)
  | spreadFooter (u : Json)

/-- The state after a setter call; `spreadHeader u` is the functional update
`setHeader(prev => ({ ...prev, ...u }))`. -/
def Action.apply (c : Client) : Action → Client
  | .setLoading b => { c with loading := b }
  | .setError e => { c with error := e }
  | .setLastSaved t => { c with lastSaved := some t }
  | .setHeader v => { c with copy := { c.copy with header := v } }
  | .setNavbar v => { c with copy := { c.copy with navbar := v } }
  | .setFooter v => { c with copy := { c.copy with footer := v } }
  | .spreadHeader u => { c with copy := { c.copy with header := objectSpread c.copy.header u } }
  | .spreadFooter u => { c with copy := { c.copy with footer := objectSpread c.copy.footer u } }

/-- The state after a list of setter calls, applied in order. -/
def run (c : Client) (acts : List Action) : Client :=
  acts.foldl Action.apply c

/-- The value an asynchronous operation of the context resolves to. -/
structure OpResult where
  success : Bool
  error : Option String

/-- The function `updateHeader` of the context. -/
def updateHeader (newHeader : Json) : List Action := [.spreadHeader newHeader]

/-- The function `updateNavbar` of the context. -/
def updateNavbar (newNavbar : Json) : List Action := [.setNavbar newNavbar]

/-- The function `updateFooter` of the context. -/
def updateFooter (newFooter : Json) : List Action := [.spreadFooter newFooter]

/-- The function `clearError` of the context. -/
def clearError : List Action := [.setError none]

/-- The function `resetToDefaults` of the context: three setter calls and no
request. -/
def resetToDefaults : List Action :=
  [.setHeader defaultHeader, .setNavbar defaultNavbar, .setFooter defaultFooter]

/-- The expression `message || fallback` on strings. -/
def orFallback (message fallback : String) : String :=
  if message = "" then fallback else message

/-- The setter calls of a remote operation before its `await`. -/
def remoteStart : List Action := [.setLoading true, .setError none]

/-- The call `if (v) set(v)` for a section of the response. -/
def setWhenTruthy (set : Json → Action) : JsVal → List Action
  | some v => if v.truthy then [set v] else []
  | none => []

/-- The setter calls for `const { header, navbar, footer } = response.data`. -/
def sectionActions (data : Json) : List Action :=
  setWhenTruthy .setHeader (field data "header") ++
  setWhenTruthy .setNavbar (field data "navbar") ++
  setWhenTruthy .setFooter (field data "footer")

/-- The `catch` and `finally` blocks of `fetchFromServer`. -/
def fetchCatch (err : Thrown) : List Action × OpResult :=
  ([.setError (some (orFallback err.message "Failed to fetch data from server")),
    .setLoading false], { success := false, error := some err.message })

/-- The setter calls of `fetchFromServer` once the remote call has settled,
and its result. -/
def fetchFromServerSettle (E : Engine) (o : FetchOutcome) : List Action × OpResult :=
  match fetchComponentData E o with
  | .error err => fetchCatch err
  | .ok response =>
    match getProp response "success" with
    | .error e => fetchCatch ⟨e.text E⟩
    | .ok success =>
      let acts :=
        if truthy success && truthy (field response "data") then
          match field response "data" with
          | some data => sectionActions data
          | none => []
        else []
      (acts ++ [.setLoading false], { success := true, error := none })

/-- The function `fetchFromServer`: all its setter calls in order, and its
result. -/
def fetchFromServer (E : Engine) (o : FetchOutcome) : List Action × OpResult :=
  (remoteStart ++ (fetchFromServerSettle E o).1, (fetchFromServerSettle E o).2)

/-- The body that `saveToServer` sends: the working copy of the render that
created the callback. -/
def saveRequest (render : Client) : Body := savePayload render.copy

/-- The `catch` and `finally` blocks of `saveToServer`. -/
def saveCatch (err : Thrown) : List Action × OpResult :=
  ([.setError (some (orFallback err.message "Failed to save data to server")),
    .setLoading false], { success := false, error := some err.message })

/-- The setter calls of `saveToServer` once the remote call has settled, and
its result; `now` is `new Date().toISOString()`. -/
def saveToServerSettle (E : Engine) (now : String) (o : FetchOutcome) :
    List Action × OpResult :=
  match saveComponentData E o with
  | .error err => saveCatch err
  | .ok response =>
    match getProp response "success" with
    | .error e => saveCatch ⟨e.text E⟩
    | .ok success =>
      ((if truthy success then [.setLastSaved now] else []) ++ [.setLoading false],
        { success := true, error := none })

/-- The function `saveToServer`: all its setter calls in order, and its
result. -/
def saveToServer (E : Engine) (now : String) (o : FetchOutcome) : List Action × OpResult :=
  (remoteStart ++ (saveToServerSettle E now o).1, (saveToServerSettle E now o).2)

/-- A client operation together with what the network did, for the remote
ones. -/
inductive ClientOp where
  | updateHeader (u : Json)
  | updateNavbar (v : Json)
  | updateFooter (u : Json)
  | resetToDefaults
  | clearError
  | fetchFromServer (o : FetchOutcome)
  | saveToServer (now : String) (o : FetchOutcome)

/-- The setter calls of an operation. -/
def ClientOp.actions (E : Engine) : ClientOp → List Action
  | .updateHeader u => Dashboard.updateHeader u
  | .updateNavbar v => Dashboard.updateNavbar v
  | .updateFooter u => Dashboard.updateFooter u
  | .resetToDefaults => Dashboard.resetToDefaults
  | .clearError => Dashboard.clearError
  | .fetchFromServer o => (Dashboard.fetchFromServer E o).1
  | .saveToServer now o => (Dashboard.saveToServer E now o).1

/-- The result of a remote operation; a local operation has none. -/
def ClientOp.result (E : Engine) : ClientOp → Option OpResult
  | .fetchFromServer o => some (Dashboard.fetchFromServer E o).2
  | .saveToServer now o => some (Dashboard.saveToServer E now o).2
  | _ => none

/-- Whether an operation is a remote operation that completed with success. -/
def ClientOp.remoteSuccess (E : Engine) (op : ClientOp) : Bool :=
  match op.result E with
  | some r => r.success
  | none => false

/-- Whether an operation is a local edit or the reset. -/
def ClientOp.isLocalEdit : ClientOp → Bool
  | .updateHeader _ => true
  | .updateNavbar _ => true
  | .updateFooter _ => true
  | .resetToDefaults => true
  | _ => false

/-- The client state after a sequence of completed operations. -/
def runOps (E : Engine) (c : Client) (ops : List ClientOp) : Client :=
  ops.foldl (fun c op => run c (op.actions E)) c

/-! ## The client: local storage -/

/-- What `localStorage.getItem` returns for a key, by the way the state
initialiser treats it: `null`, the empty string, a non-empty string that
`JSON.parse` turns into a value, or a non-empty string on which `JSON.parse`
throws. The string `JSON.stringify(v)` of a JSON value `v` is `json v`. -/
inductive Stored where
  | missing
  | empty
  | json (v : Json)
  | corrupt

/-- The three keys that `AppProvider` uses. -/
structure Storage where
  dashboardHeader : Stored
  dashboardNavbar : Stored
  dashboardFooter : Stored

/-- The initialiser `saved ? JSON.parse(saved) : dflt`; `none` when
`JSON.parse` throws. -/
def initialSection (saved : Stored) (dflt : Json) : Option Json :=
  match saved with
  | .missing => some dflt
  | .empty => some dflt
  | .json v => some v
  | .corrupt => none

/-- The working copy of the first render: the three initialisers run in the
order header, navbar, footer, and an exception in one of them aborts the
render. -/
def initialCopy (st : Storage) : Option WorkingCopy :=
  match initialSection st.dashboardHeader defaultHeader with
  | none => none
  | some header =>
    match initialSection st.dashboardNavbar defaultNavbar with
    | none => none
    | some navbar =>
      match initialSection st.dashboardFooter defaultFooter with
      | none => none
      | some footer => some { header := header, navbar := navbar, footer := footer }

/-- The client state of the first render. -/
def initialClient (st : Storage) : Option Client :=
  match initialCopy st with
  | none => none
  | some w => some { copy := w, loading := false, error := none, lastSaved := none }

/-- The client state together with the storage it mirrors into. -/
structure Browser where
  client : Client
  storage : Storage

/-- The three persistence effects as they run after the first render. -/
def persistAll (c : Client) : Storage :=
  { dashboardHeader := .json c.copy.header
    dashboardNavbar := .json c.copy.navbar
    dashboardFooter := .json c.copy.footer }

/-- Startup: the first render and its effects. -/
def mount (st : Storage) : Option Browser :=
  match initialClient st with
  | none => none
  | some c => some { client := c, storage := persistAll c }

/-- The persistence effect that follows a setter call: the effect keyed on a
section runs after the render in which that section changed and writes its
serialization; `c` is the state after the call. -/
def Action.persist (c : Client) (st : Storage) : Action → Storage
  | .setHeader _ => { st with dashboardHeader := .json c.copy.header }
  | .spreadHeader _ => { st with dashboardHeader := .json c.copy.header }
  | .setNavbar _ => { st with dashboardNavbar := .json c.copy.navbar }
  | .setFooter _ => { st with dashboardFooter := .json c.copy.footer }
  | .spreadFooter _ => { st with dashboardFooter := .json c.copy.footer }
  | _ => st

/-- A setter call followed by its effect. -/
def Browser.apply (b : Browser) (a : Action) : Browser :=
  { client := a.apply b.client, storage := a.persist (a.apply b.client) b.storage }

/-- The assignment `obj[k] = v` on the properties of an object: a property
that is there keeps its place and takes the value, a new one is added at the
end. -/
def setProp : List (String × Json) → String → Json → List (String × Json)
  | [], k, v => [(k, v)]
  | (a, w) :: rest, k, v => if a == k then (a, v) :: rest else (a, w) :: setProp rest k v

/-- The assignment `updatedLinks[index][field] = value` on the elements of a
navbar. The array `updatedLinks` is a copy, its elements are the link objects
of the navbar themselves, so the link at `index` is changed in place. An
element that is not an object, or an index beyond the list, leaves the list
as it is. -/
def assignLink : List Json → Nat → String → String → List Json
  | [], _, _, _ => []
  | .obj kvs :: rest, 0, k, v => .obj (setProp kvs k (.str v)) :: rest
  | x :: rest, 0, _, _ => x :: rest
  | x :: rest, i + 1, k, v => x :: assignLink rest i k v

/-- The function `handleNavLinkChange` of `pages/Dashboard.jsx` as the context
sees it. The form state `navLinks` is the navbar of the context or a shallow
copy of it, so writing into `updatedLinks[index]` writes into a link object of
the navbar of the context; no setter of the context is called, the identity of
`navbar` does not change, and no persistence effect runs. -/
def Browser.handleNavLinkChange (b : Browser) (index : Nat) (key value : String) : Browser :=
  match b.client.copy.navbar with
  | .arr links =>
    { b with client :=
        { b.client with copy :=
            { b.client.copy with navbar := .arr (assignLink links index key value) } } }
  | _ => b

/-- What the user can do on the dashboard page: an operation of the context,
or typing into the label or url input of a nav link. -/
inductive PageOp where
  | context (op : ClientOp)
  | navLinkChange (index : Nat) (key value : String)

/-- Whether a page operation is an operation of the context. -/
def PageOp.isContext : PageOp → Bool
  | .context _ => true
  | .navLinkChange _ _ _ => false

/-- One page operation in the browser: the setter calls of a context
operation, each followed by its persistence effect, or the in-place edit of a
nav link. -/
def Browser.step (E : Engine) (b : Browser) : PageOp → Browser
  | .context op => (op.actions E).foldl Browser.apply b
  | .navLinkChange index key value => b.handleNavLinkChange index key value

/-- A sequence of completed operations in the browser. -/
def Browser.runOps (E : Engine) (b : Browser) (ops : List PageOp) : Browser :=
  ops.foldl (Browser.step E) b

/-! ## Client and store together -/

/-- The client and the store it talks to, over a network that delivers every
request and every response. -/
structure System where
  client : Client
  store : ComponentData

/-- The function `handleReset` of `pages/Dashboard.jsx`: when the user
confirms, `resetToDefaults()` of the context runs; it sends no request, so the
record of the store stays as it is. -/
def System.handleReset (s : System) (confirmed : Bool) : System :=
  if confirmed then { s with client := run s.client resetToDefaults } else s

/-- The function `fetchFromServer` against the store: GET /api/components is
served and the response delivered. -/
def System.fetchFromServer (E : Engine) (s : System) : System :=
  { client := run s.client (Dashboard.fetchFromServer E (deliver E (getComponents s.store).1)).1
    store := (getComponents s.store).2 }

/-- The function `saveToServer` against the store: POST /api/components with
the working copy of the current render is served and the response delivered. -/
def System.saveToServer (E : Engine) (now : String) (s : System) : System :=
  { client := run s.client
      (Dashboard.saveToServer E now
        (deliver E (postComponents s.store (saveRequest s.client)).1)).1
    store := (postComponents s.store (saveRequest s.client)).2 }

/-! ## Notions used to state the client properties -/

/-- A failed exchange: `fetch` rejects, or the status is outside 200 to 299. -/
def FetchOutcome.failed : FetchOutcome → Bool
  | .networkError _ => true
  | .reply status _ => !responseOk status

/-- Whether a setter call is a call of `setLoading`. -/
def Action.isSetLoading : Action → Bool
  | .setLoading _ => true
  | _ => false

/-- The section of the working copy after a load: the section of the response
when it is there and truthy, the previous one otherwise. -/
def loaded (fromResponse : JsVal) (previous : Json) : Json :=
  match fromResponse with
  | some v => if v.truthy then v else previous
  | none => previous

/-- An engine for evaluating examples: every value that is not a string
prints as an object does. -/
def sampleEngine : Engine :=
  { toStr := fun _ => "[object Object]"
    nullRead := fun k => "Cannot read properties of null, reading " ++ k }

/-- A client for evaluating examples: the defaults, nothing in flight, and an
error left by an earlier operation. -/
def sampleClient : Client :=
  { copy := { header := defaultHeader, navbar := defaultNavbar, footer := defaultFooter }
    loading := false, error := some "earlier failure", lastSaved := none }

/-- Whether an operation is `clearError`. -/
def ClientOp.isClearError : ClientOp → Bool
  | .clearError => true
  | _ => false

/-- Whether a stored value is one that the initialiser can read: anything
but a string on which `JSON.parse` throws. -/
def Stored.readable : Stored → Bool
  | .corrupt => false
  | _ => true

/-! ## The image uploader (`services/cloudinaryService.js`) -/

/-- Whether the characters `pre` stand at the start of `cs`. -/
def startsWithChars : List Char → List Char → Bool
  | [], _ => true
  | _ :: _, [] => false
  | p :: ps, c :: cs => p == c && startsWithChars ps cs

/-- Whether the characters `sub` occur in `cs` as a contiguous run. -/
def includesChars (sub : List Char) : List Char → Bool
  | [] => startsWithChars sub []
  | c :: cs => startsWithChars sub (c :: cs) || includesChars sub cs

/-- The method `String.prototype.startsWith`. -/
def strStartsWith (s pre : String) : Bool := startsWithChars pre.toList s.toList

/-- The method `String.prototype.includes`. -/
def strIncludes (s sub : String) : Bool := includesChars sub.toList s.toList

/-- A `File` by the two properties the code reads. -/
structure File where
  type : String
  size : Nat

/-- The two build-time values `import.meta.env.VITE_CLOUDINARY_CLOUD_NAME` and
`import.meta.env.VITE_CLOUDINARY_UPLOAD_PRESET`; `none` is `undefined`. -/
structure CloudinaryConfig where
  cloudName : Option String
  uploadPreset : Option String

/-- Truthiness of an environment value: defined and not the empty string. -/
def envTruthy : Option String → Bool
  | some s => s != ""
  | none => false

/-- The function `isCloudinaryConfigured`. -/
def isCloudinaryConfigured (cfg : CloudinaryConfig) : Bool :=
  envTruthy cfg.cloudName && envTruthy cfg.uploadPreset

/-- The result object of `validateImageFile`. -/
structure Validation where
  isValid : Bool
  error : Option String

/-- The list `validTypes`. -/
def validTypes : List String :=
  ["image/jpeg", "image/png", "image/gif", "image/webp", "image/svg+xml"]

/-- The constant `maxSize`, 10 MB in bytes. -/
def maxSize : Nat := 10 * 1024 * 1024

/-- The text `(size / 1024 / 1024).toFixed(2)`: the quotient is exact for a
file size, and `toFixed(2)` prints the nearest hundredth, the larger one on a
tie. -/
def sizeInMB (size : Nat) : String :=
  let n := (200 * size + 1048576) / 2097152
  toString (n / 100) ++ "." ++ (if n % 100 < 10 then "0" else "") ++ toString (n % 100)

/-- The function `validateImageFile`; `none` is a missing file. -/
def validateImageFile (file : Option File) : Validation :=
  match file with
  | none => { isValid := false, error := some "No file provided" }
  | some f =>
    if !validTypes.contains f.type then
      { isValid := false
        error := some "Invalid file type. Please upload a JPEG, PNG, GIF, WebP, or SVG image." }
    else if f.size > maxSize then
      { isValid := false
        error := some ("File size (" ++ sizeInMB f.size ++ "MB) exceeds the 10MB limit.") }
    else { isValid := true, error := none }

/-- The options object of `uploadToCloudinary`: whether `onProgress` is
supplied, and `folder` (`none` is `undefined`). -/
structure UploadOptions where
  onProgress : Bool
  folder : Option String

/-- The two ways the upload is sent. -/
inductive Transport where
  | xhr
  | fetch
  deriving DecidableEq, Repr

/-- A network call of the uploader: the POST of the form data. -/
structure UploadRequest where
  transport : Transport
  url : String
  file : File
  uploadPreset : String
  folder : String

/-- A `progress` event of `xhr.upload`. -/
structure ProgressEvent where
  lengthComputable : Bool
  loaded : Nat
  total : Nat

/-- The event that ends an `XMLHttpRequest`: `load` with the status and the
response text as `JSON.parse` reads it (`none` when it throws), `error`, or
`abort`. -/
inductive XhrEnd where
  | load (status : Nat) (responseText : Option Json)
  | error
  | abort

/-- What happens to an `XMLHttpRequest` after `send`: its progress events in
order, then the event that ends it. -/
structure XhrExchange where
  progress : List ProgressEvent
  finish : XhrEnd

/-- How the promise of an upload ends; `pending` is a promise that never
settles. -/
inductive UploadResult where
  | resolved (v : JsVal)
  | rejected (message : String)
  | pending

/-- A run of `uploadToCloudinary`: its result, the network calls it made, and
the progress events for which it called `onProgress`. The argument of such a
call is `Math.round((event.loaded / event.total) * 100)`, which
`progressArgument` computes. -/
structure UploadRun where
  result : UploadResult
  requests : List UploadRequest
  progressCalls : List ProgressEvent

/-- The text `errorData.error?.message || fallback` as `new Error` stores it. -/
def cloudinaryErrorText (E : Engine) (errorData : Json) (fallback : String) :
    Except JsError String :=
  match getProp errorData "error" with
  | .error e => .error e
  | .ok err =>
    let message : JsVal := match err with
      | none => none
      | some .null => none
      | some v => field v "message"
    match message with
    | some m => if m.truthy then .ok (stringOf E m) else .ok fallback
    | none => .ok fallback

/-- The `load` listener of the `XMLHttpRequest` branch and its two siblings.
An exception inside the listener leaves the promise pending. -/
def xhrResult (E : Engine) : XhrEnd → UploadResult
  | .load status responseText =>
    if decide (status ≥ 200) && decide (status < 300) then
      match responseText with
      | none => .pending
      | some data =>
        match getProp data "secure_url" with
        | .error _ => .pending
        | .ok v => .resolved v
    else
      match responseText with
      | none => .rejected "Upload failed. Please try again."
      | some errorData =>
        match cloudinaryErrorText E errorData "Upload failed" with
        | .error _ => .rejected "Upload failed. Please try again."
        | .ok text => .rejected text
  | .error => .rejected "Network error. Please check your connection and try again."
  | .abort => .rejected "Upload cancelled."

/-- The `try` block of the `fetch` branch. -/
def fetchUploadTry (E : Engine) : FetchOutcome → Except Thrown JsVal
  | .networkError m => .error ⟨m⟩
  | .reply status body =>
    if !responseOk status then
      let errorData : Json := match body with
        | .ok v => v
        | .error _ => .obj []
      match cloudinaryErrorText E errorData "Upload failed. Please try again." with
      | .error e => .error ⟨e.text E⟩
      | .ok text => .error ⟨text⟩
    else
      match body with
      | .error m => .error ⟨m⟩
      | .ok data =>
        match getProp data "secure_url" with
        | .error e => .error ⟨e.text E⟩
        | .ok v => .ok v

/-- The `catch` block of `uploadToCloudinary`. -/
def uploadCatch (err : Thrown) : Thrown :=
  if strIncludes err.message "Network" then
    ⟨"Network error. Please check your internet connection."⟩
  else err

/-- The message of the configuration error. -/
def configurationMessage : String :=
  "Cloudinary configuration is missing. Please add VITE_CLOUDINARY_CLOUD_NAME and " ++
  "VITE_CLOUDINARY_UPLOAD_PRESET to your .env file."

/-- The function `uploadToCloudinary`: the configuration check, the file
validation, then the upload through `XMLHttpRequest` when `onProgress` is
supplied and through `fetch` otherwise. `xhr` and `fetched` say what the
network does with the call that is made. -/
def uploadToCloudinary (E : Engine) (cfg : CloudinaryConfig) (file : Option File)
    (options : UploadOptions) (xhr : XhrExchange) (fetched : FetchOutcome) : UploadRun :=
  if !isCloudinaryConfigured cfg then
    { result := .rejected configurationMessage, requests := [], progressCalls := [] }
  else if !(validateImageFile file).isValid then
    { result := .rejected ((validateImageFile file).error.getD "null")
      requests := [], progressCalls := [] }
  else
    match file with
    | none => { result := .rejected "No file provided", requests := [], progressCalls := [] }
    | some f =>
      let request (t : Transport) : UploadRequest :=
        { transport := t
          url := "https://api.cloudinary.com/v1_1/" ++ cfg.cloudName.getD "" ++ "/image/upload"
          file := f
          uploadPreset := cfg.uploadPreset.getD ""
          folder := options.folder.getD "dashboard-uploads" }
      if options.onProgress then
        { result := xhrResult E xhr.finish
          requests := [request .xhr]
          progressCalls := xhr.progress.filter (fun ev => ev.lengthComputable) }
      else
        { result := match fetchUploadTry E fetched with
            | .ok v => .resolved v
            | .error err => .rejected (uploadCatch err).message
          requests := [request .fetch]
          progressCalls := [] }

/-! ## The argument of `onProgress`: a computation on doubles -/

/-- The quotient `a / b` rounded to the nearest integer, a tie going to the
even one. -/
def roundHalfEven (a b : Nat) : Nat :=
  if 2 * (a % b) < b then a / b
  else if b < 2 * (a % b) then a / b + 1
  else if a / b % 2 = 0 then a / b else a / b + 1

/-- The least `k` from `k` on, within `fuel` steps, with `2^52 * b ≤ a * 2^k`. -/
def scaleUp (a b : Nat) : Nat → Nat → Nat
  | 0, k => k
  | fuel + 1, k => if 2 ^ 52 * b ≤ a * 2 ^ k then k else scaleUp a b fuel (k + 1)

/-- The least `j` from `j` on, within `fuel` steps, with `a < 2^53 * b * 2^j`. -/
def scaleDown (a b : Nat) : Nat → Nat → Nat
  | 0, j => j
  | fuel + 1, j => if a < 2 ^ 53 * b * 2 ^ j then j else scaleDown a b fuel (j + 1)

/-- A finite double that is not negative: the number `n * 2^down / 2^up` with
a significand `n` of at most 53 bits. -/
structure Double where
  n : Nat
  up : Nat
  down : Nat

/-- The numerator of a double over the denominator `Double.den`. -/
def Double.num (d : Double) : Nat := d.n * 2 ^ d.down

/-- The denominator of a double, a power of two. -/
def Double.den (d : Double) : Nat := 2 ^ d.up

/-- The double nearest to the fraction `a / b` with `b` positive, as IEEE 754
rounds the result of an operation (to nearest, ties to even): the fraction is
scaled by a power of two into the range of 53-bit significands and rounded
there. -/
def toDouble (a b : Nat) : Double :=
  if a = 0 then { n := 0, up := 0, down := 0 }
  else if 2 ^ 53 * b ≤ a then
    { n := roundHalfEven a (b * 2 ^ scaleDown a b a 0), up := 0, down := scaleDown a b a 0 }
  else
    { n := roundHalfEven (a * 2 ^ scaleUp a b (b + 52) 0) b
      up := scaleUp a b (b + 52) 0, down := 0 }

/-- A JavaScript number as `onProgress` can receive it. -/
inductive JsNumber where
  | nan
  | infinity
  | finite (n : Nat)
  deriving DecidableEq, Repr

/-- The quotient `x / y` of two doubles, `y` not zero, rounded to a double. -/
def divDouble (x y : Double) : Double := toDouble (x.num * y.den) (x.den * y.num)

/-- The product of a double and a small integer, rounded to a double. -/
def mulDouble (x : Double) (c : Nat) : Double := toDouble (x.num * c) x.den

/-- The function `Math.round` on a double that is not negative: the nearest
integer, a tie going up. -/
def mathRound (x : Double) : Nat := (2 * x.num + x.den) / (2 * x.den)

/-- The expression `Math.round((event.loaded / event.total) * 100)`: the two
integers become doubles, the quotient and the product are each rounded to a
double, and `Math.round` takes the integer nearest to the product. A zero
total gives `NaN` or `Infinity`. -/
def progressArgument (ev : ProgressEvent) : JsNumber :=
  if (toDouble ev.total 1).n = 0 then
    if (toDouble ev.loaded 1).n = 0 then .nan else .infinity
  else
    .finite (mathRound (mulDouble (divDouble (toDouble ev.loaded 1) (toDouble ev.total 1)) 100))

/-- The order of the numbers that `onProgress` receives: both finite and the
first at most the second. -/
def JsNumber.le : JsNumber → JsNumber → Prop
  | .finite a, .finite b => a ≤ b
  | _, _ => False

/-- The percentage that an event of `loaded` out of `total` bytes reports,
for a positive total. -/
def percentOf (loaded total : Nat) : Nat :=
  mathRound (mulDouble (divDouble (toDouble loaded 1) (toDouble total 1)) 100)

/-- The arguments of the calls of `onProgress` in a run, in order. -/
def UploadRun.progressValues (r : UploadRun) : List JsNumber :=
  r.progressCalls.map progressArgument

/-- The claimed value: `100 * loaded / total` rounded to the nearest integer,
a tie going up as `Math.round` does. -/
def exactPercent (loaded total : Nat) : Nat :=
  (200 * loaded + total) / (2 * total)

/-! ## The dashboard page (`pages/Dashboard.jsx`) -/

/-- The two pieces of form state that `handleImageChange` writes. -/
structure ImageForm where
  imageFile : Option File
  uploadError : String

/-- The function `handleImageChange` for the first selected file (`none`
when the selection is empty), without the preview. -/
def handleImageChange (s : ImageForm) (file : Option File) : ImageForm :=
  match file with
  | none => s
  | some f =>
    if !strStartsWith f.type "image/" then
      { s with uploadError := "Please select a valid image file" }
    else if f.size > 10 * 1024 * 1024 then
      { s with uploadError := "File size must be less than 10MB" }
    else { imageFile := some f, uploadError := "" }

/-- The form state of the dashboard that `handleSaveToServer` reads. -/
structure DashboardForm where
  headerTitle : Json
  navLinks : Json
  footerData : Json

/-- The function `handleSaveToServer`, called in a render whose context state
is `render`: the three update functions queue their setter calls, then
`saveToServer()` of that render runs. The first component is the body of the
request, the second all setter calls in order. -/
def handleSaveToServer (E : Engine) (render : Client) (form : DashboardForm) (now : String)
    (o : FetchOutcome) : Body × List Action :=
  (saveRequest render,
    updateHeader (.obj [("title", form.headerTitle)]) ++ updateNavbar form.navLinks ++
      updateFooter form.footerData ++ (saveToServer E now o).1)

/-! ## The error-handling middleware of the store -/

/-- The last middleware `app.use((err, req, res, next) => ...)`: it reports
`err.message` only when `NODE_ENV` is `development`. -/
def errorHandler (nodeEnv : Option String) (err : JsError) : Response :=
  { status := 500, success := false, message := some "Internal server error", data := none
    error := if nodeEnv = some "development" then some err else none }

/-! ## Objects compared by their properties -/

/-- Two values have the same properties: every property read gives the same
result on both. -/
def sameObject (a b : Json) : Prop := ∀ k : String, field a k = field b k

/-- An exchange for evaluating examples: no progress event, then a network
error. -/
def sampleXhr : XhrExchange := { progress := [], finish := .error }

/-! ## Lemmas on the navbar validation -/

theorem linkCheck_null : linkCheck .null = .error (.typeError "label") := rfl

theorem linkCheck_of_wellShaped (x : Json) (h : wellShapedLink x = true) :
    linkCheck x = .ok true := by
  cases x with
  | obj kvs =>
    simp only [wellShapedLink, Bool.and_eq_true] at h
    obtain ⟨hl, hu⟩ := h
    cases hlv : kvs.lookup "label" with
    | none => simp [hlv, isStr] at hl
    | some l =>
      cases huv : kvs.lookup "url" with
      | none => simp [huv, isStr] at hu
      | some u =>
        cases l <;> simp [hlv, isStr] at hl
        cases u <;> simp [huv, isStr] at hu
        simp [linkCheck, typeOf, getProp, field, hlv, huv]
  | _ => simp [wellShapedLink] at h

theorem every_linkCheck_of_wellShaped (xs : List Json)
    (h : ∀ x ∈ xs, wellShapedLink x = true) : every linkCheck xs = .ok true := by
  induction xs with
  | nil => rfl
  | cons x xs ih =>
    have hx := linkCheck_of_wellShaped x (h x (List.mem_cons_self x xs))
    have hxs := ih (fun y hy => h y (List.mem_cons_of_mem x hy))
    simp [every, hx, hxs]

/-! ## Lemmas on the combined update -/

theorem postFinish_navbar (cd : ComponentData) (footer : JsVal) :
    (postFinish cd footer).2.navbar = cd.navbar := by
  unfold postFinish postFooterStep
  cases footer with
  | none => rfl
  | some f => by_cases hf : f.truthy = true <;> simp [hf]

theorem postFinish_header (cd : ComponentData) (footer : JsVal) :
    (postFinish cd footer).2.header = cd.header := by
  unfold postFinish postFooterStep
  cases footer with
  | none => rfl
  | some f => by_cases hf : f.truthy = true <;> simp [hf]

theorem postFinish_response (cd : ComponentData) (footer : JsVal) :
    (postFinish cd footer).1 =
      okResponse (some "Component data updated successfully")
        (.record (postFinish cd footer).2) := rfl

theorem postHeaderStep_navbar (cd : ComponentData) (header : JsVal) :
    (postHeaderStep cd header).navbar = cd.navbar := by
  unfold postHeaderStep
  cases header with
  | none => rfl
  | some h => by_cases hh : h.truthy = true <;> simp [hh]

theorem postHeaderStep_footer (cd : ComponentData) (header : JsVal) :
    (postHeaderStep cd header).footer = cd.footer := by
  unfold postHeaderStep
  cases header with
  | none => rfl
  | some h => by_cases hh : h.truthy = true <;> simp [hh]

/-- The three outcomes of the combined update, by the result of the navbar
validation. -/
theorem postComponents_cases (cd : ComponentData) (body : Body) :
    (∃ e, postComponents cd body =
        (caughtResponse "Failed to save component data" e,
          postHeaderStep cd (body.lookup "header"))) ∨
    postComponents cd body =
        (invalidNavbarResponse, postHeaderStep cd (body.lookup "header")) ∨
    (∃ cd1, postComponents cd body = postFinish cd1 (body.lookup "footer") ∧
        cd1.header = (postHeaderStep cd (body.lookup "header")).header ∧
        cd1.footer = cd.footer) := by
  unfold postComponents
  by_cases hg : (truthy (body.lookup "navbar") && isArray (body.lookup "navbar")) = true
  · simp only [hg, if_true]
    cases hev : every linkCheck (elements (body.lookup "navbar")) with
    | error e => exact Or.inl ⟨e, rfl⟩
    | ok b =>
      cases b with
      | false => exact Or.inr (Or.inl rfl)
      | true => exact Or.inr (Or.inr ⟨_, rfl, rfl, postHeaderStep_footer _ _⟩)
  · simp only [hg]
    exact Or.inr (Or.inr ⟨_, rfl, rfl, postHeaderStep_footer _ _⟩)

/-! ## Lemmas on the field-level merges -/

theorem mergeHeader_eq (h : Header) (title imageUrl : JsVal) :
    mergeHeader h title imageUrl =
      { title := title.getD h.title, imageUrl := imageUrl.getD h.imageUrl } := by
  cases title <;> cases imageUrl <;> rfl

theorem mergeFooter_eq (f : Footer) (email phone address : JsVal) :
    mergeFooter f email phone address =
      { email := email.getD f.email, phone := phone.getD f.phone,
        address := address.getD f.address } := by
  cases email <;> cases phone <;> cases address <;> rfl

theorem postHeaderStep_obj (cd : ComponentData) (kvs : List (String × Json)) :
    (postHeaderStep cd (some (.obj kvs))).header =
      mergeHeader cd.header (kvs.lookup "title") (kvs.lookup "imageUrl") := rfl

theorem postFinish_footer_obj (cd : ComponentData) (kvs : List (String × Json)) :
    (postFinish cd (some (.obj kvs))).2.footer =
      mergeFooter cd.footer (kvs.lookup "email") (kvs.lookup "phone")
        (kvs.lookup "address") := rfl

/-- The header left by the combined update is the header after its first
block, whatever the outcome of the navbar block. -/
theorem postComponents_header (cd : ComponentData) (body : Body) :
    (postComponents cd body).2.header =
      (postHeaderStep cd (body.lookup "header")).header := by
  rcases postComponents_cases cd body with ⟨e, he⟩ | he | ⟨cd1, he, h1, _⟩
  · rw [he]
  · rw [he]
  · rw [he, postFinish_header, h1]

/-- The combined update with a navbar that is an array of well-shaped links
runs to its end on the record carrying the new navbar. -/
theorem postComponents_wellShaped (cd : ComponentData) (body : Body) (xs : List Json)
    (hb : body.lookup "navbar" = some (.arr xs))
    (hs : ∀ x ∈ xs, wellShapedLink x = true) :
    postComponents cd body =
      postFinish { postHeaderStep cd (body.lookup "header") with navbar := xs }
        (body.lookup "footer") := by
  unfold postComponents
  simp [hb, truthy, Json.truthy, isArray, elements, every_linkCheck_of_wellShaped xs hs]

/-- The combined update with a navbar that is not an array skips the navbar
block. -/
theorem postComponents_notArray (cd : ComponentData) (body : Body)
    (hb : isArray (body.lookup "navbar") = false) :
    postComponents cd body =
      postFinish (postHeaderStep cd (body.lookup "header")) (body.lookup "footer") := by
  unfold postComponents
  simp [hb]

/-! ## Claims -/

/-- C1 (defect exhibited): a combined update carrying a header change and the
navbar `[{label: "x"}]` is answered with the 400 rejection, yet the header
title of the record has been overwritten; footer and navbar are untouched. -/
theorem C1_rejected_update_mutates_header :
    (postComponents componentData
        [("header", .obj [("title", .str "New")]),
         ("navbar", .arr [.obj [("label", .str "x")]]),
         ("footer", .obj [("email", .str "a@b.com")])]).1.status = 400 ∧
    (postComponents componentData
        [("header", .obj [("title", .str "New")]),
         ("navbar", .arr [.obj [("label", .str "x")]]),
         ("footer", .obj [("email", .str "a@b.com")])]).2.header.title = .str "New" ∧
    componentData.header.title = .str "Welcome to My Dashboard" ∧
    (postComponents componentData
        [("header", .obj [("title", .str "New")]),
         ("navbar", .arr [.obj [("label", .str "x")]]),
         ("footer", .obj [("email", .str "a@b.com")])]).2.footer.email
      = .str "contact@example.com" := by
  refine ⟨?_, ?_, ?_, ?_⟩ <;> rfl

/-- C2 (defect exhibited): a combined update whose navbar is `[null]` is not
answered with the 400 rejection: the validation callback throws on the
`null` element and the response is the 500 of the `catch` block. -/
theorem C2_null_element_is_500 :
    (postComponents componentData [("navbar", .arr [.null])]).1 =
      caughtResponse "Failed to save component data" (.typeError "label") ∧
    (postComponents componentData [("navbar", .arr [.null])]).1.status = 500 ∧
    (postComponents componentData [("navbar", .arr [.null])]).1.status
      ≠ invalidNavbarResponse.status := by
  refine ⟨rfl, rfl, ?_⟩
  decide

/-- C3: whenever the combined update answers with the 400 rejection, the GET
that follows returns the record left behind, and its navbar is the navbar
from before the attempt. -/
theorem C3_rejected_update_keeps_navbar (cd : ComponentData) (body : Body)
    (h : (postComponents cd body).1.status = 400) :
    (getComponents (postComponents cd body).2).1.data
        = some (.record (postComponents cd body).2) ∧
    (getComponents (postComponents cd body).2).1.status = 200 ∧
    (postComponents cd body).2.navbar = cd.navbar := by
  refine ⟨rfl, rfl, ?_⟩
  rcases postComponents_cases cd body with ⟨e, he⟩ | he | ⟨cd1, he, _, _⟩
  · rw [he] at h
    simp [caughtResponse] at h
  · rw [he]
    exact postHeaderStep_navbar cd _
  · rw [he, postFinish_response] at h
    simp [okResponse] at h

/-- C3 witness: the navbar `[{label: "X"}]` sent to the default record. -/
theorem C3_rejected_update_keeps_navbar_witness :
    (postComponents componentData [("navbar", .arr [.obj [("label", .str "X")]])]).1.status
        = 400 ∧
    (postComponents componentData
        [("navbar", .arr [.obj [("label", .str "X")]])]).2.navbar = componentData.navbar :=
  ⟨rfl, (C3_rejected_update_keeps_navbar componentData
      [("navbar", .arr [.obj [("label", .str "X")]])] rfl).2.2⟩

/-- C4: header merge law. For a header update object that supplies `title`
and no `imageUrl`, sent inside a POST /api/components body or as the body of
PUT /api/components/header, the resulting header has the supplied title and
the previous imageUrl; symmetrically for an update that supplies only
`imageUrl`. -/
theorem C4_header_merge_law (cd : ComponentData) (body : Body)
    (u : List (String × Json)) (v : Json)
    (hb : body.lookup "header" = some (.obj u)) :
    (u.lookup "title" = some v → u.lookup "imageUrl" = none →
      (postComponents cd body).2.header = { title := v, imageUrl := cd.header.imageUrl } ∧
      (putHeader cd u).2.header = { title := v, imageUrl := cd.header.imageUrl }) ∧
    (u.lookup "imageUrl" = some v → u.lookup "title" = none →
      (postComponents cd body).2.header = { title := cd.header.title, imageUrl := v } ∧
      (putHeader cd u).2.header = { title := cd.header.title, imageUrl := v }) := by
  have hp : (postComponents cd body).2.header =
      mergeHeader cd.header (u.lookup "title") (u.lookup "imageUrl") := by
    rw [postComponents_header, hb, postHeaderStep_obj]
  have hq : (putHeader cd u).2.header =
      mergeHeader cd.header (u.lookup "title") (u.lookup "imageUrl") := rfl
  constructor
  · intro h1 h2
    rw [hp, hq, h1, h2]
    exact ⟨rfl, rfl⟩
  · intro h1 h2
    rw [hp, hq, h1, h2]
    exact ⟨rfl, rfl⟩

/-- C4 witness: the update `{title: "T"}` on the default record. -/
theorem C4_header_merge_law_witness :
    (postComponents componentData [("header", .obj [("title", .str "T")])]).2.header
        = { title := .str "T", imageUrl := componentData.header.imageUrl } ∧
    (putHeader componentData [("title", .str "T")]).2.header
        = { title := .str "T", imageUrl := componentData.header.imageUrl } :=
  (C4_header_merge_law componentData [("header", .obj [("title", .str "T")])]
    [("title", .str "T")] (.str "T") rfl).1 rfl rfl

/-- C5 (as stated, refuted): a POST /api/components that carries the footer
update `{email: "a@b.com"}` together with the navbar `[{label: "x"}]` is
answered with the 400 rejection and the email of the record stays as it
was. -/
theorem C5_rejected_post_skips_footer :
    (postComponents componentData
      [("navbar", .arr [.obj [("label", .str "x")]]),
       ("footer", .obj [("email", .str "a@b.com")])]).1.status = 400 ∧
    (postComponents componentData
      [("navbar", .arr [.obj [("label", .str "x")]]),
       ("footer", .obj [("email", .str "a@b.com")])]).2.footer.email
      = .str "contact@example.com" ∧
    (postComponents componentData
      [("navbar", .arr [.obj [("label", .str "x")]]),
       ("footer", .obj [("email", .str "a@b.com")])]).2.footer = componentData.footer :=
  ⟨rfl, rfl, rfl⟩

/-- C5 (amended): footer merge. For a footer update object, sent inside an accepted
POST /api/components or as the body of PUT /api/components/footer, each of
`email`, `phone`, `address` that the update supplies takes the supplied value
and each one it lacks keeps its prior value; the response data carries the
merged footer. -/
theorem C5_footer_merge (cd : ComponentData) (body : Body) (u : List (String × Json))
    (hb : body.lookup "footer" = some (.obj u))
    (hacc : (postComponents cd body).1.success = true) :
    (postComponents cd body).2.footer =
      { email := (u.lookup "email").getD cd.footer.email
        phone := (u.lookup "phone").getD cd.footer.phone
        address := (u.lookup "address").getD cd.footer.address } ∧
    (postComponents cd body).1.data = some (.record (postComponents cd body).2) ∧
    (putFooter cd u).2.footer =
      { email := (u.lookup "email").getD cd.footer.email
        phone := (u.lookup "phone").getD cd.footer.phone
        address := (u.lookup "address").getD cd.footer.address } ∧
    (putFooter cd u).1.data = some (.footer (putFooter cd u).2.footer) := by
  refine ⟨?_, ?_, ?_, rfl⟩
  · rcases postComponents_cases cd body with ⟨e, he⟩ | he | ⟨cd1, he, _, h2⟩
    · rw [he] at hacc
      simp [caughtResponse] at hacc
    · rw [he] at hacc
      simp [invalidNavbarResponse] at hacc
    · rw [he, hb, postFinish_footer_obj, h2, mergeFooter_eq]
  · rcases postComponents_cases cd body with ⟨e, he⟩ | he | ⟨cd1, he, _, _⟩
    · rw [he] at hacc
      simp [caughtResponse] at hacc
    · rw [he] at hacc
      simp [invalidNavbarResponse] at hacc
    · rw [he, postFinish_response]
      rfl
  · show mergeFooter cd.footer (u.lookup "email") (u.lookup "phone") (u.lookup "address") = _
    rw [mergeFooter_eq]

/-- C5 witness: POST with the footer `{email: "a@b.com"}` on the default
record sets the email and keeps phone and address. -/
theorem C5_footer_merge_witness :
    (postComponents componentData
        [("footer", .obj [("email", .str "a@b.com")])]).1.success = true ∧
    (postComponents componentData [("footer", .obj [("email", .str "a@b.com")])]).2.footer =
      { email := .str "a@b.com"
        phone := componentData.footer.phone
        address := componentData.footer.address } :=
  ⟨rfl, (C5_footer_merge componentData [("footer", .obj [("email", .str "a@b.com")])]
      [("email", .str "a@b.com")] rfl rfl).1⟩

/-- C6: whole-replace law. When the navbar of a POST /api/components body is
an array of well-shaped links, of any length, the call succeeds and the
navbar of the record, and of the record in the response, is exactly the
supplied list. -/
theorem C6_navbar_whole_replace (cd : ComponentData) (body : Body) (xs : List Json)
    (hb : body.lookup "navbar" = some (.arr xs))
    (hs : ∀ x ∈ xs, wellShapedLink x = true) :
    (postComponents cd body).2.navbar = xs ∧
    (postComponents cd body).1.status = 200 ∧
    (postComponents cd body).1.success = true ∧
    (postComponents cd body).1.data = some (.record (postComponents cd body).2) := by
  rw [postComponents_wellShaped cd body xs hb hs]
  exact ⟨postFinish_navbar _ _, rfl, rfl, rfl⟩

/-- C6 witness: a single link replaces the three default links. -/
theorem C6_navbar_whole_replace_witness :
    (postComponents componentData [("navbar", .arr [navLink "Blog" "/blog"])]).2.navbar
      = [navLink "Blog" "/blog"] :=
  (C6_navbar_whole_replace componentData [("navbar", .arr [navLink "Blog" "/blog"])]
    [navLink "Blog" "/blog"] rfl (by simp [navLink, wellShapedLink, isStr, List.lookup])).1

/-- C7: when the navbar of a POST /api/components body is absent or is not an
array, the call succeeds and the navbar of the record is the one from before
the call. -/
theorem C7_navbar_kept_when_not_array (cd : ComponentData) (body : Body)
    (hb : isArray (body.lookup "navbar") = false) :
    (postComponents cd body).2.navbar = cd.navbar ∧
    (postComponents cd body).1.status = 200 ∧
    (postComponents cd body).1.success = true := by
  rw [postComponents_notArray cd body hb]
  refine ⟨?_, rfl, rfl⟩
  rw [postFinish_navbar, postHeaderStep_navbar]

/-- C7 witness: a string sent as navbar leaves the default links in place. -/
theorem C7_navbar_kept_when_not_array_witness :
    (postComponents componentData [("navbar", .str "home")]).2.navbar
      = componentData.navbar :=
  (C7_navbar_kept_when_not_array componentData [("navbar", .str "home")] rfl).1

/-- C8: DELETE /api/components/reset installs the startup record and returns
it from every state; the GET that follows returns that record; a second reset
gives the same response and the same record as the first. -/
theorem C8_reset_restores_defaults (cd : ComponentData) :
    (deleteReset cd).2 = componentData ∧
    (deleteReset cd).1.status = 200 ∧
    (deleteReset cd).1.data = some (.record componentData) ∧
    (getComponents (deleteReset cd).2).1.data = some (.record componentData) ∧
    deleteReset (deleteReset cd).2 = deleteReset cd :=
  ⟨rfl, rfl, rfl, rfl, rfl⟩

/-- C9: save/load round trip. For a well-formed full record `X` held by the
client, posting its payload once, or twice in a row, succeeds from every
store state, and the GET that follows returns a record equal to `X`. -/
theorem C9_save_load_round_trip (cd X : ComponentData) (hX : WellFormed X) :
    (postComponents cd (savePayload X.toWorkingCopy)).1.success = true ∧
    (getComponents (postComponents cd (savePayload X.toWorkingCopy)).2).1.data
      = some (.record X) ∧
    (postComponents (postComponents cd (savePayload X.toWorkingCopy)).2
      (savePayload X.toWorkingCopy)).1.success = true ∧
    (getComponents
      (postComponents (postComponents cd (savePayload X.toWorkingCopy)).2
        (savePayload X.toWorkingCopy)).2).1.data = some (.record X) := by
  have key : ∀ s : ComponentData,
      postComponents s (savePayload X.toWorkingCopy) =
        (okResponse (some "Component data updated successfully") (.record X), X) := by
    intro s
    have hn : (savePayload X.toWorkingCopy).lookup "navbar" = some (.arr X.navbar) := rfl
    rw [postComponents_wellShaped s _ X.navbar hn hX.2.2.2.2.2]
    rfl
  rw [key cd, key X]
  exact ⟨rfl, rfl, rfl, rfl⟩

/-- C9 witness: the startup record saved over a store whose header was
edited. -/
theorem C9_save_load_round_trip_witness :
    (getComponents (postComponents (putHeader componentData [("title", .str "T")]).2
      (savePayload componentData.toWorkingCopy)).2).1.data = some (.record componentData) :=
  (C9_save_load_round_trip (putHeader componentData [("title", .str "T")]).2 componentData
    (by
      refine ⟨rfl, rfl, rfl, rfl, rfl, ?_⟩
      intro x hx
      simp [componentData] at hx
      rcases hx with rfl | rfl | rfl <;> rfl)).2.1

/-- C10: the startup record has three navbar links labelled Home, About,
Contact in that order; GET /api/components on it returns that record and
leaves it as it is. -/
theorem C10_default_state :
    componentData.navbar.length = 3 ∧
    componentData.navbar.map (fun l => field l "label") =
      [some (.str "Home"), some (.str "About"), some (.str "Contact")] ∧
    (getComponents componentData).1.status = 200 ∧
    (getComponents componentData).1.data = some (.record componentData) ∧
    (getComponents componentData).2 = componentData :=
  ⟨rfl, rfl, rfl, rfl, rfl⟩

/-! ## Lemmas on the navbar shape -/

theorem wellShaped_of_linkCheck (x : Json) (h : linkCheck x = .ok true) :
    wellShapedLink x = true := by
  cases x with
  | obj kvs =>
    cases hl : kvs.lookup "label" with
    | none => simp [linkCheck, typeOf, getProp, field, hl] at h
    | some l =>
      cases hu : kvs.lookup "url" with
      | none => cases l <;> simp [linkCheck, typeOf, getProp, field, hl, hu] at h
      | some u =>
        cases l <;> cases u <;> simp [linkCheck, typeOf, getProp, field, hl, hu] at h
        simp [wellShapedLink, isStr, hl, hu]
  | null => simp [linkCheck, typeOf, getProp] at h
  | bool b => simp [linkCheck, typeOf] at h
  | num n => simp [linkCheck, typeOf] at h
  | str t => simp [linkCheck, typeOf] at h
  | arr xs => simp [linkCheck, typeOf, getProp, field] at h

theorem wellShaped_of_every (xs : List Json) (h : every linkCheck xs = .ok true) :
    ∀ x ∈ xs, wellShapedLink x = true := by
  induction xs with
  | nil => intro x hx; cases hx
  | cons y ys ih =>
    unfold every at h
    cases hy : linkCheck y with
    | error e => simp [hy] at h
    | ok b =>
      cases b with
      | false => simp [hy] at h
      | true =>
        simp only [hy] at h
        intro x hx
        rcases List.mem_cons.mp hx with rfl | hx
        · exact wellShaped_of_linkCheck _ hy
        · exact ih h x hx

/-- The combined update keeps a well-shaped navbar well-shaped, whatever its
outcome. -/
theorem postComponents_navShaped (cd : ComponentData) (body : Body)
    (h : ∀ x ∈ cd.navbar, wellShapedLink x = true) :
    ∀ x ∈ (postComponents cd body).2.navbar, wellShapedLink x = true := by
  unfold postComponents
  by_cases hg : (truthy (body.lookup "navbar") && isArray (body.lookup "navbar")) = true
  · simp only [hg, if_true]
    cases hev : every linkCheck (elements (body.lookup "navbar")) with
    | error e =>
      simp only []
      rw [postHeaderStep_navbar]
      exact h
    | ok b =>
      cases b with
      | false =>
        simp only []
        rw [postHeaderStep_navbar]
        exact h
      | true =>
        simp only []
        rw [postFinish_navbar]
        exact wellShaped_of_every _ hev
  · rw [if_neg hg, postFinish_navbar, postHeaderStep_navbar]
    exact h

theorem componentData_navShaped : ∀ x ∈ componentData.navbar, wellShapedLink x = true := by
  intro x hx
  simp [componentData] at hx
  rcases hx with rfl | rfl | rfl <;> rfl

theorem handle_navShaped (cd : ComponentData) (op : StoreOp)
    (hop : op.isPutNavbar = false)
    (h : ∀ x ∈ cd.navbar, wellShapedLink x = true) :
    ∀ x ∈ (op.handle cd).2.navbar, wellShapedLink x = true := by
  cases op with
  | post body => exact postComponents_navShaped cd body h
  | putHeader body => exact h
  | putNavbar body => simp [StoreOp.isPutNavbar] at hop
  | putFooter body => exact h
  | reset => exact componentData_navShaped

theorem runStore_navShaped (ops : List StoreOp) :
    ∀ cd : ComponentData, (∀ op ∈ ops, op.isPutNavbar = false) →
      (∀ x ∈ cd.navbar, wellShapedLink x = true) →
      ∀ x ∈ (runStore cd ops).navbar, wellShapedLink x = true := by
  induction ops with
  | nil => intro cd _ h; exact h
  | cons op ops ih =>
    intro cd hops h
    exact ih _ (fun o ho => hops o (List.mem_cons_of_mem op ho))
      (handle_navShaped cd op (hops op (List.mem_cons_self op ops)) h)

/-! ## Claims on the store, continued -/

/-- C11 (as stated, refuted): the store accepts PUT /api/components/header with
the title `5` on the startup record, and the record it leaves is not
well-formed, its title being a number. -/
theorem C11_accepted_update_breaks_shape :
    allAccepted componentData [.putHeader [("title", .num 5)]] = true ∧
    ¬ WellFormed (runStore componentData [.putHeader [("title", .num 5)]]) := by
  refine ⟨rfl, ?_⟩
  intro h
  have h1 := h.1
  simp [runStore, StoreOp.handle, putHeader, mergeHeader, List.lookup, isStr] at h1

/-- C11 (amended): starting from the startup record, after every sequence of
combined updates, per-section header and footer updates and resets, whether
accepted or not, every navbar element has a string label and a string url. -/
theorem C11_navbar_shape_invariant (ops : List StoreOp)
    (h : ∀ op ∈ ops, op.isPutNavbar = false) :
    ∀ x ∈ (runStore componentData ops).navbar, wellShapedLink x = true :=
  runStore_navShaped ops componentData h componentData_navShaped

/-- C11 witness: a rejected combined update followed by a header update. -/
theorem C11_navbar_shape_invariant_witness :
    (runStore componentData
        [.post [("navbar", .arr [.obj [("label", .str "x")]])],
         .putHeader [("title", .num 5)]]).navbar.all wellShapedLink = true :=
  List.all_eq_true.mpr (C11_navbar_shape_invariant
    [.post [("navbar", .arr [.obj [("label", .str "x")]])], .putHeader [("title", .num 5)]]
    (by
      intro op hop
      simp at hop
      rcases hop with rfl | rfl <;> rfl))

/-- C12: PUT /api/components/navbar with `links` an array stores that array as
the navbar without looking at its elements and returns it as the response
data; with `links` absent or not an array the navbar stays as it was. -/
theorem C12_put_navbar (cd : ComponentData) (body : Body) :
    (∀ xs, body.lookup "links" = some (.arr xs) →
      (putNavbar cd body).2.navbar = xs ∧
      (putNavbar cd body).1.data = some (.navbar xs) ∧
      (putNavbar cd body).1.status = 200 ∧
      (putNavbar cd body).2.header = cd.header ∧
      (putNavbar cd body).2.footer = cd.footer) ∧
    (isArray (body.lookup "links") = false →
      (putNavbar cd body).2.navbar = cd.navbar ∧
      (putNavbar cd body).1.data = some (.navbar cd.navbar)) := by
  constructor
  · intro xs hxs
    simp [putNavbar, hxs, truthy, Json.truthy, isArray, elements, okResponse]
  · intro hna
    simp [putNavbar, hna, okResponse]

/-- C12 witness: the array `[null]`, whose element is no link, is stored as
it is. -/
theorem C12_put_navbar_witness :
    (putNavbar componentData [("links", .arr [.null])]).2.navbar = [.null] ∧
    (putNavbar componentData [("links", .str "x")]).2.navbar = componentData.navbar :=
  ⟨((C12_put_navbar componentData [("links", .arr [.null])]).1 [.null] rfl).1,
   ((C12_put_navbar componentData [("links", .str "x")]).2 rfl).1⟩

/-! ## Lemmas on the client -/

theorem run_append (c : Client) (xs ys : List Action) :
    run c (xs ++ ys) = run (run c xs) ys := by
  simp [run, List.foldl_append]

theorem run_cons (c : Client) (a : Action) (xs : List Action) :
    run c (a :: xs) = run (a.apply c) xs := rfl

theorem run_nil (c : Client) : run c [] = c := rfl

theorem orFallback_ne_empty (m fb : String) (h : fb ≠ "") : orFallback m fb ≠ "" := by
  unfold orFallback
  by_cases hm : m = ""
  · simp [hm, h]
  · simp [hm]

/-- A failed exchange makes the transport function throw. -/
theorem awaitJson_failed (E : Engine) (fb : String) (o : FetchOutcome)
    (h : o.failed = true) : ∃ err, awaitJson E fb o = .error err := by
  cases o with
  | networkError m => exact ⟨⟨m⟩, rfl⟩
  | reply status body =>
    simp only [FetchOutcome.failed] at h
    unfold awaitJson
    simp only [h, if_true]
    split
    · exact ⟨_, rfl⟩
    · split
      · exact ⟨_, rfl⟩
      · exact ⟨_, rfl⟩
    · exact ⟨_, rfl⟩

theorem run_setWhenTruthy_header (c : Client) (v : JsVal) :
    run c (setWhenTruthy .setHeader v) =
      { c with copy := { c.copy with header := loaded v c.copy.header } } := by
  cases v with
  | none => rfl
  | some x => by_cases hx : x.truthy = true <;> simp [setWhenTruthy, loaded, hx, run, Action.apply]

theorem run_setWhenTruthy_navbar (c : Client) (v : JsVal) :
    run c (setWhenTruthy .setNavbar v) =
      { c with copy := { c.copy with navbar := loaded v c.copy.navbar } } := by
  cases v with
  | none => rfl
  | some x => by_cases hx : x.truthy = true <;> simp [setWhenTruthy, loaded, hx, run, Action.apply]

theorem run_setWhenTruthy_footer (c : Client) (v : JsVal) :
    run c (setWhenTruthy .setFooter v) =
      { c with copy := { c.copy with footer := loaded v c.copy.footer } } := by
  cases v with
  | none => rfl
  | some x => by_cases hx : x.truthy = true <;> simp [setWhenTruthy, loaded, hx, run, Action.apply]

/-- The state after the setter calls for the sections of a response. -/
theorem run_sectionActions (c : Client) (data : Json) :
    run c (sectionActions data) =
      { c with copy :=
          { header := loaded (field data "header") c.copy.header
            navbar := loaded (field data "navbar") c.copy.navbar
            footer := loaded (field data "footer") c.copy.footer } } := by
  unfold sectionActions
  rw [run_append, run_append, run_setWhenTruthy_header, run_setWhenTruthy_navbar,
    run_setWhenTruthy_footer]

/-- The setter calls of a load whose response is an object with truthy
`success` and truthy `data`. -/
theorem fetchFromServer_loaded (E : Engine) (status : Nat) (response data : Json)
    (hok : responseOk status = true)
    (hs : truthy (field response "success") = true)
    (hd : field response "data" = some data) (hdt : data.truthy = true) :
    fetchFromServer E (.reply status (.ok response)) =
      (remoteStart ++ (sectionActions data ++ [.setLoading false]),
        { success := true, error := none }) := by
  cases response with
  | obj kvs =>
    simp only [field] at hs hd
    have ht : truthy (some data) = true := hdt
    simp [fetchFromServer, fetchFromServerSettle, fetchComponentData, awaitJson, hok, getProp,
      field, hs, hd, ht]
  | _ => simp [field] at hd

/-- The state after a load whose response is an object with truthy `success`
and truthy `data`. -/
theorem run_fetchFromServer_loaded (E : Engine) (c : Client) (status : Nat)
    (response data : Json) (hok : responseOk status = true)
    (hs : truthy (field response "success") = true)
    (hd : field response "data" = some data) (hdt : data.truthy = true) :
    run c (fetchFromServer E (.reply status (.ok response))).1 =
      { copy :=
          { header := loaded (field data "header") c.copy.header
            navbar := loaded (field data "navbar") c.copy.navbar
            footer := loaded (field data "footer") c.copy.footer }
        loading := false, error := none, lastSaved := c.lastSaved } := by
  rw [fetchFromServer_loaded E status response data hok hs hd hdt]
  simp only [remoteStart, run_append, run_cons, run_nil, run_sectionActions]
  rfl

/-- The setter calls and the result of a load whose exchange failed. -/
theorem fetchFromServer_failed (E : Engine) (o : FetchOutcome) (h : o.failed = true) :
    ∃ err, fetchFromServer E o = (remoteStart ++ (fetchCatch err).1, (fetchCatch err).2) := by
  obtain ⟨err, herr⟩ := awaitJson_failed E "Failed to fetch component data" o h
  refine ⟨err, ?_⟩
  simp [fetchFromServer, fetchFromServerSettle, fetchComponentData, herr]

/-! ## Claims on the client -/

/-- C13: load success is remote-wins. Against the store, `fetchFromServer`
ends with the working copy equal to the record of the store, section by
section, with `error = null` and `loading = false`. For any ok response with
truthy `success` and `data`, each section that `data` carries (as a truthy
value) replaces the local section as a whole, each section that `data` lacks
is left as it was, and the error ends as `null`. -/
theorem C13_load_success_remote_wins (E : Engine) (c : Client) :
    (∀ cd : ComponentData,
      run c (fetchFromServer E (deliver E (getComponents cd).1)).1 =
        { copy := cd.toWorkingCopy, loading := false, error := none,
          lastSaved := c.lastSaved } ∧
      (fetchFromServer E (deliver E (getComponents cd).1)).2.success = true) ∧
    (∀ (status : Nat) (response data : Json), responseOk status = true →
      truthy (field response "success") = true →
      field response "data" = some data → data.truthy = true →
      (∀ v, field data "header" = some v → v.truthy = true →
        (run c (fetchFromServer E (.reply status (.ok response))).1).copy.header = v) ∧
      (∀ v, field data "navbar" = some v → v.truthy = true →
        (run c (fetchFromServer E (.reply status (.ok response))).1).copy.navbar = v) ∧
      (∀ v, field data "footer" = some v → v.truthy = true →
        (run c (fetchFromServer E (.reply status (.ok response))).1).copy.footer = v) ∧
      (field data "header" = none →
        (run c (fetchFromServer E (.reply status (.ok response))).1).copy.header
          = c.copy.header) ∧
      (field data "navbar" = none →
        (run c (fetchFromServer E (.reply status (.ok response))).1).copy.navbar
          = c.copy.navbar) ∧
      (field data "footer" = none →
        (run c (fetchFromServer E (.reply status (.ok response))).1).copy.footer
          = c.copy.footer) ∧
      (run c (fetchFromServer E (.reply status (.ok response))).1).error = none ∧
      (run c (fetchFromServer E (.reply status (.ok response))).1).loading = false ∧
      (fetchFromServer E (.reply status (.ok response))).2.success = true) := by
  constructor
  · intro cd
    have hrun := run_fetchFromServer_loaded E c 200 ((getComponents cd).1.toJson E)
      (Data.toJson (.record cd)) rfl rfl rfl rfl
    have hres := fetchFromServer_loaded E 200 ((getComponents cd).1.toJson E)
      (Data.toJson (.record cd)) rfl rfl rfl rfl
    refine ⟨?_, ?_⟩
    · show run c (fetchFromServer E (.reply 200 (.ok ((getComponents cd).1.toJson E)))).1 = _
      rw [hrun]
      rfl
    · show (fetchFromServer E (.reply 200 (.ok ((getComponents cd).1.toJson E)))).2.success = _
      rw [hres]
  · intro status response data hok hs hd hdt
    rw [run_fetchFromServer_loaded E c status response data hok hs hd hdt,
      fetchFromServer_loaded E status response data hok hs hd hdt]
    refine ⟨?_, ?_, ?_, ?_, ?_, ?_, rfl, rfl, rfl⟩
    · intro v hv hvt
      simp [hv, loaded, hvt]
    · intro v hv hvt
      simp [hv, loaded, hvt]
    · intro v hv hvt
      simp [hv, loaded, hvt]
    · intro hv
      simp [hv, loaded]
    · intro hv
      simp [hv, loaded]
    · intro hv
      simp [hv, loaded]

/-- C13 witness: a response that carries only a header replaces the header and
keeps the navbar, and clears the recorded error. -/
theorem C13_load_success_remote_wins_witness :
    (run sampleClient (fetchFromServer sampleEngine (.reply 200 (.ok (.obj
      [("success", .bool true),
       ("data", .obj [("header", .obj [("title", .str "S")])])])))).1).copy.header
      = .obj [("title", .str "S")] ∧
    (run sampleClient (fetchFromServer sampleEngine (.reply 200 (.ok (.obj
      [("success", .bool true),
       ("data", .obj [("header", .obj [("title", .str "S")])])])))).1).copy.navbar
      = defaultNavbar ∧
    (run sampleClient (fetchFromServer sampleEngine (.reply 200 (.ok (.obj
      [("success", .bool true),
       ("data", .obj [("header", .obj [("title", .str "S")])])])))).1).error = none :=
  have h := (C13_load_success_remote_wins sampleEngine sampleClient).2 200
    (.obj [("success", .bool true), ("data", .obj [("header", .obj [("title", .str "S")])])])
    (.obj [("header", .obj [("title", .str "S")])]) rfl rfl rfl rfl
  ⟨h.1 _ rfl rfl, h.2.2.2.2.1 rfl, h.2.2.2.2.2.2.1⟩

/-- C14: load failure leaves the working copy untouched. When `fetch` rejects
or the response status is outside 200 to 299, `fetchFromServer` leaves header,
navbar and footer as they were, records an error message that is not empty,
ends with `loading = false` and resolves to a failure result. -/
theorem C14_load_failure_keeps_copy (E : Engine) (c : Client) (o : FetchOutcome)
    (h : o.failed = true) :
    (run c (fetchFromServer E o).1).copy = c.copy ∧
    (∃ m, (run c (fetchFromServer E o).1).error = some m ∧ m ≠ "") ∧
    (run c (fetchFromServer E o).1).loading = false ∧
    (fetchFromServer E o).2.success = false := by
  obtain ⟨err, herr⟩ := fetchFromServer_failed E o h
  rw [herr]
  refine ⟨rfl, ⟨_, rfl, ?_⟩, rfl, rfl⟩
  exact orFallback_ne_empty _ _ (by decide)

/-- C14 witness: a network failure, and the 500 answer of a server. -/
theorem C14_load_failure_keeps_copy_witness :
    (run sampleClient (fetchFromServer sampleEngine (.networkError "Failed to fetch")).1).copy
      = sampleClient.copy ∧
    (fetchFromServer sampleEngine (.reply 500 (.error "Unexpected token"))).2.success
      = false :=
  ⟨(C14_load_failure_keeps_copy sampleEngine sampleClient (.networkError "Failed to fetch")
      rfl).1,
   (C14_load_failure_keeps_copy sampleEngine sampleClient
      (.reply 500 (.error "Unexpected token")) rfl).2.2.2⟩

/-! ## Lemmas on the save -/

/-- The setter calls and the result of a save whose exchange failed. -/
theorem saveToServer_failed (E : Engine) (now : String) (o : FetchOutcome)
    (h : o.failed = true) :
    ∃ err, saveToServer E now o = (remoteStart ++ (saveCatch err).1, (saveCatch err).2) := by
  obtain ⟨err, herr⟩ := awaitJson_failed E "Failed to save component data" o h
  refine ⟨err, ?_⟩
  simp [saveToServer, saveToServerSettle, saveComponentData, herr]

/-- The setter calls and the result of a save answered by an ok response with
truthy `success`. -/
theorem saveToServer_saved (E : Engine) (now : String) (status : Nat) (response : Json)
    (hok : responseOk status = true) (hs : truthy (field response "success") = true) :
    saveToServer E now (.reply status (.ok response)) =
      (remoteStart ++ ([.setLastSaved now] ++ [.setLoading false]),
        { success := true, error := none }) := by
  cases response with
  | obj kvs =>
    simp only [field] at hs
    simp [saveToServer, saveToServerSettle, saveComponentData, awaitJson, hok, getProp,
      field, hs]
  | _ => simp [field, truthy] at hs

/-- Every outcome of a save is one of three lists of setter calls. -/
theorem saveToServer_cases (E : Engine) (now : String) (o : FetchOutcome) :
    (∃ err, saveToServer E now o = (remoteStart ++ (saveCatch err).1, (saveCatch err).2)) ∨
    saveToServer E now o =
      (remoteStart ++ ([.setLastSaved now] ++ [.setLoading false]),
        { success := true, error := none }) ∨
    saveToServer E now o =
      (remoteStart ++ ([] ++ [.setLoading false]), { success := true, error := none }) := by
  unfold saveToServer saveToServerSettle
  cases hsave : saveComponentData E o with
  | error err => exact Or.inl ⟨err, rfl⟩
  | ok response =>
    cases hp : getProp response "success" with
    | error e =>
      refine Or.inl ⟨⟨e.text E⟩, ?_⟩
      simp [hp]
    | ok success =>
      by_cases ht : truthy success = true
      · refine Or.inr (Or.inl ?_)
        simp [hp, ht]
      · refine Or.inr (Or.inr ?_)
        simp [hp, ht]

theorem okResponse_toJson_success (E : Engine) (m : Option String) (d : Data) :
    truthy (field ((okResponse m d).toJson E) "success") = true := rfl

/-- The state after a save, whatever the outcome: the working copy is the one
from before and nothing is in flight. -/
theorem run_saveToServer_copy (E : Engine) (c : Client) (now : String) (o : FetchOutcome) :
    (run c (saveToServer E now o).1).copy = c.copy ∧
    (run c (saveToServer E now o).1).loading = false := by
  rcases saveToServer_cases E now o with ⟨err, h⟩ | h | h <;> rw [h] <;> exact ⟨rfl, rfl⟩

/-- The save against the store, by the answer of the combined update. -/
theorem System_saveToServer_client (E : Engine) (now : String) (c : Client)
    (cd : ComponentData) :
    ((postComponents cd (saveRequest c)).1.success = true →
      (System.saveToServer E now ⟨c, cd⟩).client =
        { c with loading := false, error := none, lastSaved := some now }) ∧
    ((postComponents cd (saveRequest c)).1.success = false →
      (System.saveToServer E now ⟨c, cd⟩).client =
        { c with loading := false, error := (postComponents cd (saveRequest c)).1.message }) := by
  rcases postComponents_cases cd (saveRequest c) with ⟨e, he⟩ | he | ⟨cd1, he, _, _⟩
  · constructor
    · intro h
      rw [he] at h
      simp [caughtResponse] at h
    · intro _
      simp only [System.saveToServer, he]
      rfl
  · constructor
    · intro h
      rw [he] at h
      simp [invalidNavbarResponse] at h
    · intro _
      simp only [System.saveToServer, he]
      rfl
  · constructor
    · intro _
      simp only [System.saveToServer, he, postFinish_response]
      rfl
    · intro h
      rw [he, postFinish_response] at h
      simp [okResponse] at h

/-- C15: save postcondition. `saveToServer` posts the three sections of the
working copy; whatever the outcome it leaves header, navbar and footer as they
were; when the response is ok with `success` set, `lastSaved` becomes the
current time and the error is `null`; when the exchange fails, the error is the
message of the failure, not empty, and `lastSaved` keeps its value. Against the
store: an accepted save sets `lastSaved` and clears the error, a rejected one
records the message of the store and keeps `lastSaved`. -/
theorem C15_save_postcondition (E : Engine) (c : Client) (now : String) :
    saveRequest c =
      [("header", c.copy.header), ("navbar", c.copy.navbar), ("footer", c.copy.footer)] ∧
    (∀ o, (run c (saveToServer E now o).1).copy = c.copy) ∧
    (∀ (status : Nat) (response : Json), responseOk status = true →
      truthy (field response "success") = true →
      (run c (saveToServer E now (.reply status (.ok response))).1).lastSaved = some now ∧
      (run c (saveToServer E now (.reply status (.ok response))).1).error = none ∧
      (saveToServer E now (.reply status (.ok response))).2.success = true) ∧
    (∀ o, o.failed = true →
      (∃ m, (saveToServer E now o).2.error = some m ∧
        (run c (saveToServer E now o).1).error
          = some (orFallback m "Failed to save data to server") ∧
        orFallback m "Failed to save data to server" ≠ "") ∧
      (run c (saveToServer E now o).1).lastSaved = c.lastSaved ∧
      (saveToServer E now o).2.success = false) ∧
    (∀ cd : ComponentData,
      (System.saveToServer E now ⟨c, cd⟩).store = (postComponents cd (saveRequest c)).2 ∧
      (System.saveToServer E now ⟨c, cd⟩).client.copy = c.copy ∧
      ((postComponents cd (saveRequest c)).1.success = true →
        (System.saveToServer E now ⟨c, cd⟩).client.lastSaved = some now ∧
        (System.saveToServer E now ⟨c, cd⟩).client.error = none) ∧
      ((postComponents cd (saveRequest c)).1.success = false →
        (System.saveToServer E now ⟨c, cd⟩).client.error
          = (postComponents cd (saveRequest c)).1.message ∧
        (System.saveToServer E now ⟨c, cd⟩).client.lastSaved = c.lastSaved)) := by
  refine ⟨rfl, fun o => (run_saveToServer_copy E c now o).1, ?_, ?_, ?_⟩
  · intro status response hok hs
    rw [saveToServer_saved E now status response hok hs]
    exact ⟨rfl, rfl, rfl⟩
  · intro o ho
    obtain ⟨err, herr⟩ := saveToServer_failed E now o ho
    rw [herr]
    exact ⟨⟨err.message, rfl, rfl, orFallback_ne_empty _ _ (by decide)⟩, rfl, rfl⟩
  · intro cd
    have hc := System_saveToServer_client E now c cd
    refine ⟨rfl, (run_saveToServer_copy E c now _).1, ?_, ?_⟩
    · intro h
      rw [hc.1 h]
      exact ⟨rfl, rfl⟩
    · intro h
      rw [hc.2 h]
      exact ⟨rfl, rfl⟩

/-- C15 witness: the default working copy saved to a store whose header was
edited is accepted, and a network failure leaves `lastSaved` alone. -/
theorem C15_save_postcondition_witness :
    (System.saveToServer sampleEngine "2026-01-01T00:00:00.000Z"
      ⟨sampleClient, (putHeader componentData [("title", .str "T")]).2⟩).client.lastSaved
      = some "2026-01-01T00:00:00.000Z" ∧
    (run sampleClient (saveToServer sampleEngine "2026-01-01T00:00:00.000Z"
      (.networkError "Failed to fetch")).1).lastSaved = sampleClient.lastSaved :=
  have h := C15_save_postcondition sampleEngine sampleClient "2026-01-01T00:00:00.000Z"
  ⟨((h.2.2.2.2 (putHeader componentData [("title", .str "T")]).2).2.2.1 rfl).1,
   (h.2.2.2.1 (.networkError "Failed to fetch") rfl).2.1⟩

/-- C16 (defect exhibited): with a store whose header title was set to `T`,
the reset of the client, confirmed, sends nothing to the store: the record of
the store keeps the title `T` and is not the record of the defaults. -/
theorem C16_client_reset_leaves_store :
    (System.handleReset
      ⟨sampleClient, (putHeader componentData [("title", .str "T")]).2⟩ true).store.header.title
        = .str "T" ∧
    (System.handleReset
      ⟨sampleClient, (putHeader componentData [("title", .str "T")]).2⟩ true).store
        ≠ componentData := by
  refine ⟨rfl, ?_⟩
  intro h
  have ht := congrArg (fun r => r.header.title) h
  simp [System.handleReset, putHeader, mergeHeader, List.lookup, componentData] at ht

/-- What the reset of the client does: once confirmed it overwrites the three
sections of the working copy with the defaults built into the client and
leaves the record of the store, `loading`, `error` and `lastSaved` as they
are; declined, it changes nothing. -/
theorem handleReset_local (s : System) :
    (System.handleReset s true).store = s.store ∧
    (System.handleReset s true).client.copy
      = { header := defaultHeader, navbar := defaultNavbar, footer := defaultFooter } ∧
    (System.handleReset s true).client.copy = componentData.toWorkingCopy ∧
    (System.handleReset s true).client.loading = s.client.loading ∧
    (System.handleReset s true).client.error = s.client.error ∧
    (System.handleReset s true).client.lastSaved = s.client.lastSaved ∧
    System.handleReset s false = s :=
  ⟨rfl, rfl, rfl, rfl, rfl, rfl, rfl⟩

/-! ## Lemmas on the loading flag -/

theorem run_loading_of_no_setLoading (acts : List Action) :
    ∀ c : Client, (∀ a ∈ acts, a.isSetLoading = false) → (run c acts).loading = c.loading := by
  induction acts with
  | nil => intro c _; rfl
  | cons a acts ih =>
    intro c h
    rw [run_cons, ih _ (fun b hb => h b (List.mem_cons_of_mem a hb))]
    have ha := h a (List.mem_cons_self a acts)
    cases a <;> first | rfl | simp [Action.isSetLoading] at ha

theorem sectionActions_no_setLoading (data : Json) :
    ∀ a ∈ sectionActions data, a.isSetLoading = false := by
  intro a ha
  simp only [sectionActions, List.mem_append] at ha
  rcases ha with (ha | ha) | ha
  all_goals
    revert ha
    unfold setWhenTruthy
    split
    · split
      · intro ha
        rw [List.mem_singleton.mp ha]
        rfl
      · intro ha
        cases ha
    · intro ha
      cases ha

/-- The shape of the setter calls of a load: `setLoading(true)` first,
`setLoading(false)` last, no call of `setLoading` in between. -/
theorem fetchFromServer_shape (E : Engine) (o : FetchOutcome) :
    ∃ mid, (fetchFromServer E o).1 = .setLoading true :: (mid ++ [.setLoading false]) ∧
      ∀ a ∈ mid, a.isSetLoading = false := by
  unfold fetchFromServer fetchFromServerSettle
  cases hf : fetchComponentData E o with
  | error err =>
    refine ⟨[.setError none, .setError (some (orFallback err.message
      "Failed to fetch data from server"))], rfl, ?_⟩
    intro a ha
    simp at ha
    rcases ha with rfl | rfl <;> rfl
  | ok response =>
    cases hp : getProp response "success" with
    | error e =>
      refine ⟨[.setError none, .setError (some (orFallback (e.text E)
        "Failed to fetch data from server"))], ?_, ?_⟩
      · simp [hp, remoteStart, fetchCatch]
      · intro a ha
        simp at ha
        rcases ha with rfl | rfl <;> rfl
    | ok success =>
      by_cases hc : (truthy success && truthy (field response "data")) = true
      · cases hd : field response "data" with
        | none =>
          refine ⟨[.setError none], ?_, ?_⟩
          · simp [hp, remoteStart, hd]
          · intro a ha
            rw [List.mem_singleton.mp ha]
            rfl
        | some data =>
          refine ⟨.setError none :: sectionActions data, ?_, ?_⟩
          · rw [hd] at hc
            simp [hp, remoteStart, hd, hc]
          · intro a ha
            rcases List.mem_cons.mp ha with rfl | ha
            · rfl
            · exact sectionActions_no_setLoading data a ha
      · refine ⟨[.setError none], ?_, ?_⟩
        · simp [hp, remoteStart, hc]
        · intro a ha
          rw [List.mem_singleton.mp ha]
          rfl

/-- The shape of the setter calls of a save. -/
theorem saveToServer_shape (E : Engine) (now : String) (o : FetchOutcome) :
    ∃ mid, (saveToServer E now o).1 = .setLoading true :: (mid ++ [.setLoading false]) ∧
      ∀ a ∈ mid, a.isSetLoading = false := by
  rcases saveToServer_cases E now o with ⟨err, h⟩ | h | h
  · refine ⟨[.setError none, .setError (some (orFallback err.message
      "Failed to save data to server"))], by rw [h]; rfl, ?_⟩
    intro a ha
    simp at ha
    rcases ha with rfl | rfl <;> rfl
  · refine ⟨[.setError none, .setLastSaved now], by rw [h]; rfl, ?_⟩
    intro a ha
    simp at ha
    rcases ha with rfl | rfl <;> rfl
  · refine ⟨[.setError none], by rw [h]; rfl, ?_⟩
    intro a ha
    rw [List.mem_singleton.mp ha]
    rfl

/-- The loading flag along a list of setter calls of that shape. -/
theorem loading_discipline (c : Client) (mid : List Action)
    (hmid : ∀ a ∈ mid, a.isSetLoading = false) :
    (Action.setLoading true :: (mid ++ [Action.setLoading false])).head?
      = some (.setLoading true) ∧
    (Action.setLoading true :: (mid ++ [Action.setLoading false])).getLast?
      = some (.setLoading false) ∧
    (∀ k, 0 < k → k < (Action.setLoading true :: (mid ++ [Action.setLoading false])).length →
      (run c ((Action.setLoading true :: (mid ++ [Action.setLoading false])).take k)).loading
        = true) ∧
    (run c (Action.setLoading true :: (mid ++ [Action.setLoading false]))).loading = false := by
  refine ⟨rfl, ?_, ?_, ?_⟩
  · exact List.getLast?_concat (Action.setLoading true :: mid)
  · intro k hk hlen
    obtain ⟨j, rfl⟩ : ∃ j, k = j + 1 := ⟨k - 1, by omega⟩
    have hj : j ≤ mid.length := by
      simp only [List.length_cons, List.length_append, List.length_nil] at hlen
      omega
    rw [List.take_succ_cons, List.take_append_of_le_length hj, run_cons,
      run_loading_of_no_setLoading _ _ (fun a ha => hmid a (List.mem_of_mem_take ha))]
    rfl
  · rw [run_cons, run_append]
    rfl

/-- C17: loading flag discipline. For `fetchFromServer` and for `saveToServer`,
whatever the outcome of the remote call, the first setter call is
`setLoading(true)`, the last one is `setLoading(false)`, `loading` is true
after every setter call in between, in particular when the remote call
starts, and it is false when the operation has completed. -/
theorem C17_loading_flag_discipline (E : Engine) (c : Client) (now : String)
    (o : FetchOutcome) :
    ((fetchFromServer E o).1.head? = some (.setLoading true) ∧
      (fetchFromServer E o).1.getLast? = some (.setLoading false) ∧
      (∀ k, 0 < k → k < (fetchFromServer E o).1.length →
        (run c ((fetchFromServer E o).1.take k)).loading = true) ∧
      (run c (fetchFromServer E o).1).loading = false) ∧
    ((saveToServer E now o).1.head? = some (.setLoading true) ∧
      (saveToServer E now o).1.getLast? = some (.setLoading false) ∧
      (∀ k, 0 < k → k < (saveToServer E now o).1.length →
        (run c ((saveToServer E now o).1.take k)).loading = true) ∧
      (run c (saveToServer E now o).1).loading = false) ∧
    (run c remoteStart).loading = true := by
  obtain ⟨m1, h1, hm1⟩ := fetchFromServer_shape E o
  obtain ⟨m2, h2, hm2⟩ := saveToServer_shape E now o
  rw [h1, h2]
  exact ⟨loading_discipline c m1 hm1, loading_discipline c m2 hm2, rfl⟩

/-- C17 witness: a failing load from a state with nothing in flight. -/
theorem C17_loading_flag_discipline_witness :
    (run sampleClient ((fetchFromServer sampleEngine (.networkError "down")).1.take 2)).loading
      = true ∧
    (run sampleClient (fetchFromServer sampleEngine (.networkError "down")).1).loading
      = false :=
  have h := (C17_loading_flag_discipline sampleEngine sampleClient "" (.networkError "down")).1
  ⟨h.2.2.1 2 (by decide) (by decide), h.2.2.2⟩

/-! ## Lemmas on the recorded error -/

/-- Every outcome of a load is one of three lists of setter calls. -/
theorem fetchFromServer_cases (E : Engine) (o : FetchOutcome) :
    (∃ err, fetchFromServer E o = (remoteStart ++ (fetchCatch err).1, (fetchCatch err).2)) ∨
    (∃ data, fetchFromServer E o =
      (remoteStart ++ (sectionActions data ++ [.setLoading false]),
        { success := true, error := none })) ∨
    fetchFromServer E o =
      (remoteStart ++ ([] ++ [.setLoading false]), { success := true, error := none }) := by
  unfold fetchFromServer fetchFromServerSettle
  cases hf : fetchComponentData E o with
  | error err => exact Or.inl ⟨err, rfl⟩
  | ok response =>
    cases hp : getProp response "success" with
    | error e =>
      refine Or.inl ⟨⟨e.text E⟩, ?_⟩
      simp [hp]
    | ok success =>
      by_cases hc : (truthy success && truthy (field response "data")) = true
      · cases hd : field response "data" with
        | none =>
          refine Or.inr (Or.inr ?_)
          simp [hp, hd]
        | some data =>
          refine Or.inr (Or.inl ⟨data, ?_⟩)
          rw [hd] at hc
          simp [hp, hd, hc]
      · refine Or.inr (Or.inr ?_)
        simp [hp, hc]

/-- The recorded error after a completed load. -/
theorem run_fetchFromServer_error (E : Engine) (c : Client) (o : FetchOutcome) :
    ((fetchFromServer E o).2.success = true ∧ (run c (fetchFromServer E o).1).error = none) ∨
    (∃ m, (fetchFromServer E o).2 = { success := false, error := some m } ∧
      (run c (fetchFromServer E o).1).error
        = some (orFallback m "Failed to fetch data from server")) := by
  rcases fetchFromServer_cases E o with ⟨err, h⟩ | ⟨data, h⟩ | h
  · rw [h]
    exact Or.inr ⟨err.message, rfl, rfl⟩
  · rw [h]
    refine Or.inl ⟨rfl, ?_⟩
    simp only [remoteStart, run_append, run_cons, run_nil, run_sectionActions]
    rfl
  · rw [h]
    exact Or.inl ⟨rfl, rfl⟩

/-- The recorded error after a completed save. -/
theorem run_saveToServer_error (E : Engine) (c : Client) (now : String) (o : FetchOutcome) :
    ((saveToServer E now o).2.success = true ∧
      (run c (saveToServer E now o).1).error = none) ∨
    (∃ m, (saveToServer E now o).2 = { success := false, error := some m } ∧
      (run c (saveToServer E now o).1).error
        = some (orFallback m "Failed to save data to server")) := by
  rcases saveToServer_cases E now o with ⟨err, h⟩ | h | h
  · rw [h]
    exact Or.inr ⟨err.message, rfl, rfl⟩
  · rw [h]
    exact Or.inl ⟨rfl, rfl⟩
  · rw [h]
    exact Or.inl ⟨rfl, rfl⟩

/-- One operation: when a recorded error is gone afterwards, the operation is
`clearError` or a remote operation that succeeded. -/
theorem error_cleared_step (E : Engine) (c : Client) (op : ClientOp)
    (hc : c.error ≠ none) (h : (run c (op.actions E)).error = none) :
    op.isClearError = true ∨ op.remoteSuccess E = true := by
  cases op with
  | updateHeader u => exact absurd h hc
  | updateNavbar v => exact absurd h hc
  | updateFooter u => exact absurd h hc
  | resetToDefaults => exact absurd h hc
  | clearError => exact Or.inl rfl
  | fetchFromServer o =>
    rcases run_fetchFromServer_error E c o with ⟨hs, _⟩ | ⟨m, _, he⟩
    · exact Or.inr hs
    · simp only [ClientOp.actions] at h
      rw [he] at h
      cases h
  | saveToServer now o =>
    rcases run_saveToServer_error E c now o with ⟨hs, _⟩ | ⟨m, _, he⟩
    · exact Or.inr hs
    · simp only [ClientOp.actions] at h
      rw [he] at h
      cases h

theorem runOps_cons (E : Engine) (c : Client) (op : ClientOp) (ops : List ClientOp) :
    runOps E c (op :: ops) = runOps E (run c (op.actions E)) ops := rfl

theorem error_cleared_run (E : Engine) (ops : List ClientOp) :
    ∀ c : Client, c.error ≠ none → (runOps E c ops).error = none →
      ∃ op ∈ ops, op.isClearError = true ∨ op.remoteSuccess E = true := by
  induction ops with
  | nil => intro c hc h; exact absurd h hc
  | cons op ops ih =>
    intro c hc h
    by_cases h1 : (run c (op.actions E)).error = none
    · exact ⟨op, List.mem_cons_self op ops, error_cleared_step E c op hc h1⟩
    · rw [runOps_cons] at h
      obtain ⟨op2, hmem, hop2⟩ := ih _ h1 h
      exact ⟨op2, List.mem_cons_of_mem op hmem, hop2⟩

/-- C18 (as stated, refuted): a recorded error is `null` as soon as a remote
operation has made its first two setter calls, before the remote call
settles; here the operation then fails, so no remote operation has completed
with success and `clearError` was not called. -/
theorem C18_error_cleared_at_start :
    sampleClient.error = some "earlier failure" ∧
    (fetchFromServer sampleEngine (.networkError "down")).1.take 2 = remoteStart ∧
    (run sampleClient ((fetchFromServer sampleEngine (.networkError "down")).1.take 2)).error
      = none ∧
    (fetchFromServer sampleEngine (.networkError "down")).2.success = false :=
  ⟨rfl, rfl, rfl, rfl⟩

/-- C18 (amended): error retention between completed operations. A local edit
or the reset leaves the recorded error as it is. After a remote operation
that failed with message `m`, the recorded error is `m`, or the fallback text
of the operation when `m` is empty, and in both cases it is not empty. After
a remote operation that succeeded the recorded error is `null`. Over every
sequence of completed operations, a recorded error that is `null` at the end
has been cleared by a `clearError` or by a remote operation that succeeded.
While a remote operation is in flight the error is `null`: its first setter
calls clear it. -/
theorem C18_error_retention (E : Engine) :
    (∀ (c : Client) (op : ClientOp), op.isLocalEdit = true →
      (run c (op.actions E)).error = c.error) ∧
    (∀ (c : Client) (op : ClientOp) (r : OpResult), op.result E = some r →
      r.success = false →
      ∃ m recorded, r.error = some m ∧ (run c (op.actions E)).error = some recorded ∧
        recorded ≠ "" ∧ (m ≠ "" → recorded = m)) ∧
    (∀ (c : Client) (op : ClientOp), op.remoteSuccess E = true →
      (run c (op.actions E)).error = none) ∧
    (∀ (c : Client) (op : ClientOp), c.error ≠ none →
      (run c (op.actions E)).error = none →
      op.isClearError = true ∨ op.remoteSuccess E = true) ∧
    (∀ (c : Client) (ops : List ClientOp), c.error ≠ none →
      (runOps E c ops).error = none →
      ∃ op ∈ ops, op.isClearError = true ∨ op.remoteSuccess E = true) ∧
    (∀ c : Client, (run c remoteStart).error = none) := by
  refine ⟨?_, ?_, ?_, fun c op => error_cleared_step E c op,
    fun c ops => error_cleared_run E ops c, fun _ => rfl⟩
  · intro c op hop
    cases op <;> first | rfl | simp [ClientOp.isLocalEdit] at hop
  · intro c op r hr hfail
    cases op with
    | fetchFromServer o =>
      simp only [ClientOp.result, Option.some.injEq] at hr
      rcases run_fetchFromServer_error E c o with ⟨hs, _⟩ | ⟨m, hm, he⟩
      · rw [hr, hfail] at hs
        cases hs
      · refine ⟨m, _, ?_, he, orFallback_ne_empty _ _ (by decide), ?_⟩
        · rw [← hr, hm]
        · intro hne
          simp [orFallback, hne]
    | saveToServer now o =>
      simp only [ClientOp.result, Option.some.injEq] at hr
      rcases run_saveToServer_error E c now o with ⟨hs, _⟩ | ⟨m, hm, he⟩
      · rw [hr, hfail] at hs
        cases hs
      · refine ⟨m, _, ?_, he, orFallback_ne_empty _ _ (by decide), ?_⟩
        · rw [← hr, hm]
        · intro hne
          simp [orFallback, hne]
    | _ => simp [ClientOp.result] at hr
  · intro c op hs
    cases op with
    | fetchFromServer o =>
      rcases run_fetchFromServer_error E c o with ⟨_, he⟩ | ⟨m, hm, _⟩
      · exact he
      · simp [ClientOp.remoteSuccess, ClientOp.result, hm] at hs
    | saveToServer now o =>
      rcases run_saveToServer_error E c now o with ⟨_, he⟩ | ⟨m, hm, _⟩
      · exact he
      · simp [ClientOp.remoteSuccess, ClientOp.result, hm] at hs
    | _ => simp [ClientOp.remoteSuccess, ClientOp.result] at hs

/-- C18 witness: an error left by a failed load survives a local edit and a
reset, and is replaced by the message of the next failed save. -/
theorem C18_error_retention_witness :
    (runOps sampleEngine sampleClient
      [.updateHeader (.obj [("title", .str "T")]), .resetToDefaults]).error
        = sampleClient.error ∧
    (∃ m recorded,
      (saveToServer sampleEngine "" (.networkError "offline")).2.error = some m ∧
      (run sampleClient (saveToServer sampleEngine "" (.networkError "offline")).1).error
        = some recorded ∧ recorded ≠ "" ∧ (m ≠ "" → recorded = m)) :=
  ⟨rfl, (C18_error_retention sampleEngine).2.1 sampleClient
    (.saveToServer "" (.networkError "offline")) _ rfl rfl⟩

/-- C19 (as stated, refuted): with a corrupt value under the header key and a
stored navbar, startup produces no working copy at all, so the navbar is not
loaded from its key. -/
theorem C19_corrupt_header_aborts_startup :
    initialCopy
      { dashboardHeader := .corrupt
        dashboardNavbar := .json (.arr [navLink "Blog" "/blog"])
        dashboardFooter := .missing } = none ∧
    ¬ ∃ w, initialCopy
      { dashboardHeader := .corrupt
        dashboardNavbar := .json (.arr [navLink "Blog" "/blog"])
        dashboardFooter := .missing } = some w ∧ w.navbar = .arr [navLink "Blog" "/blog"] := by
  refine ⟨rfl, ?_⟩
  rintro ⟨w, hw, _⟩
  cases hw

/-- C19 (amended): per-section startup fallback on readable storage. When none
of the three stored values is corrupt, startup produces a working copy in
which each section is the deserialized value of its own key when the key holds
a non-empty string, and the built-in default when the key is missing or holds
the empty string, independently of the other two keys. -/
theorem C19_startup_fallback (st : Storage)
    (hh : st.dashboardHeader.readable = true) (hn : st.dashboardNavbar.readable = true)
    (hf : st.dashboardFooter.readable = true) :
    ∃ w, initialCopy st = some w ∧
      (∀ v, st.dashboardHeader = .json v → w.header = v) ∧
      (st.dashboardHeader = .missing ∨ st.dashboardHeader = .empty → w.header = defaultHeader) ∧
      (∀ v, st.dashboardNavbar = .json v → w.navbar = v) ∧
      (st.dashboardNavbar = .missing ∨ st.dashboardNavbar = .empty → w.navbar = defaultNavbar) ∧
      (∀ v, st.dashboardFooter = .json v → w.footer = v) ∧
      (st.dashboardFooter = .missing ∨ st.dashboardFooter = .empty → w.footer = defaultFooter) := by
  obtain ⟨h, n, f⟩ := st
  cases h <;> cases n <;> cases f <;>
    first
    | (simp [Stored.readable] at hh hn hf; done)
    | (refine ⟨_, rfl, ?_, ?_, ?_, ?_, ?_, ?_⟩ <;> simp)

/-- C19 witness: the header key is missing, navbar and footer load from their
keys. -/
theorem C19_startup_fallback_witness :
    ∃ w, initialCopy
        { dashboardHeader := .missing
          dashboardNavbar := .json (.arr [])
          dashboardFooter := .json (.obj [("email", .str "a@b.com")]) } = some w ∧
      w.header = defaultHeader ∧ w.navbar = .arr [] ∧
      w.footer = .obj [("email", .str "a@b.com")] :=
  have ⟨w, hw, _, h2, h3, _, h5, _⟩ := C19_startup_fallback
    { dashboardHeader := .missing
      dashboardNavbar := .json (.arr [])
      dashboardFooter := .json (.obj [("email", .str "a@b.com")]) } rfl rfl rfl
  ⟨w, hw, h2 (Or.inl rfl), h3 _ rfl, h5 _ rfl⟩

/-! ## Lemmas on the persistence mirror -/

theorem mirror_apply (b : Browser) (a : Action) (h : b.storage = persistAll b.client) :
    (b.apply a).storage = persistAll (b.apply a).client := by
  cases a <;> simp [Browser.apply, Action.apply, Action.persist, persistAll, h]

theorem mirror_actions (acts : List Action) :
    ∀ b : Browser, b.storage = persistAll b.client →
      (acts.foldl Browser.apply b).storage = persistAll (acts.foldl Browser.apply b).client := by
  induction acts with
  | nil => intro b h; exact h
  | cons a acts ih => intro b h; exact ih _ (mirror_apply b a h)

theorem client_actions (acts : List Action) :
    ∀ b : Browser, (acts.foldl Browser.apply b).client = run b.client acts := by
  induction acts with
  | nil => intro b; rfl
  | cons a acts ih => intro b; exact ih _

theorem mirror_runOps (E : Engine) (ops : List PageOp) :
    ∀ b : Browser, (∀ op ∈ ops, op.isContext = true) → b.storage = persistAll b.client →
      (Browser.runOps E b ops).storage = persistAll (Browser.runOps E b ops).client := by
  induction ops with
  | nil => intro b _ h; exact h
  | cons op ops ih =>
    intro b hops h
    have hop := hops op (List.mem_cons_self op ops)
    cases op with
    | context cop =>
      exact ih _ (fun o ho => hops o (List.mem_cons_of_mem _ ho))
        (mirror_actions (cop.actions E) b h)
    | navLinkChange index key value => simp [PageOp.isContext] at hop

theorem mount_mirror (st : Storage) (b : Browser) (h : mount st = some b) :
    b.storage = persistAll b.client := by
  unfold mount at h
  cases hc : initialClient st with
  | none => simp [hc] at h
  | some c =>
    simp only [hc, Option.some.injEq] at h
    rw [← h]

theorem mount_persistAll (c : Client) :
    mount (persistAll c) =
      some { client := { copy := c.copy, loading := false, error := none, lastSaved := none }
             storage := persistAll c } := rfl

/-- The mirror holds as long as only operations of the context run: from a
startup that succeeded, the three keys hold the serializations of the current
sections and a restart produces the same working copy. -/
theorem mirror_of_context_ops (E : Engine) (st : Storage) (b : Browser)
    (ops : List PageOp) (hm : mount st = some b) (hops : ∀ op ∈ ops, op.isContext = true) :
    (Browser.runOps E b ops).storage = persistAll (Browser.runOps E b ops).client ∧
    ∃ b2, mount (Browser.runOps E b ops).storage = some b2 ∧
      b2.client.copy = (Browser.runOps E b ops).client.copy := by
  have h := mirror_runOps E ops b hops (mount_mirror st b hm)
  refine ⟨h, ?_⟩
  rw [h, mount_persistAll]
  exact ⟨_, rfl, rfl⟩

/-- C20 (defect exhibited): from empty storage, the user types `Start` into the
label of the first nav link and then updates the header title. After that
`updateHeader` the header key holds the current header, but the navbar of the
working copy has the label `Start` while the key `dashboardNavbar` still holds
the label `Home`, and a restart from the storage brings back `Home`. -/
theorem C20_inplace_edit_breaks_mirror :
    mount { dashboardHeader := .missing, dashboardNavbar := .missing,
            dashboardFooter := .missing }
      = some { client := { copy := { header := defaultHeader, navbar := defaultNavbar,
                                     footer := defaultFooter },
                           loading := false, error := none, lastSaved := none }
               storage := persistAll sampleClient } ∧
    (Browser.runOps sampleEngine
      { client := { copy := { header := defaultHeader, navbar := defaultNavbar,
                              footer := defaultFooter },
                    loading := false, error := none, lastSaved := none }
        storage := persistAll sampleClient }
      [.navLinkChange 0 "label" "Start",
       .context (.updateHeader (.obj [("title", .str "T")]))]).client.copy.navbar
      = .arr [navLink "Start" "/", navLink "About" "/about", navLink "Contact" "/contact"] ∧
    (Browser.runOps sampleEngine
      { client := { copy := { header := defaultHeader, navbar := defaultNavbar,
                              footer := defaultFooter },
                    loading := false, error := none, lastSaved := none }
        storage := persistAll sampleClient }
      [.navLinkChange 0 "label" "Start",
       .context (.updateHeader (.obj [("title", .str "T")]))]).storage.dashboardNavbar
      = .json (.arr [navLink "Home" "/", navLink "About" "/about",
          navLink "Contact" "/contact"]) ∧
    (Browser.runOps sampleEngine
      { client := { copy := { header := defaultHeader, navbar := defaultNavbar,
                              footer := defaultFooter },
                    loading := false, error := none, lastSaved := none }
        storage := persistAll sampleClient }
      [.navLinkChange 0 "label" "Start",
       .context (.updateHeader (.obj [("title", .str "T")]))]).storage.dashboardHeader
      = .json (objectSpread defaultHeader (.obj [("title", .str "T")])) ∧
    initialSection (Browser.runOps sampleEngine
      { client := { copy := { header := defaultHeader, navbar := defaultNavbar,
                              footer := defaultFooter },
                    loading := false, error := none, lastSaved := none }
        storage := persistAll sampleClient }
      [.navLinkChange 0 "label" "Start",
       .context (.updateHeader (.obj [("title", .str "T")]))]).storage.dashboardNavbar
      defaultNavbar
      = some (.arr [navLink "Home" "/", navLink "About" "/about",
          navLink "Contact" "/contact"]) :=
  ⟨rfl, rfl, rfl, rfl, rfl⟩

/-! ## Lemmas on the image validator -/

theorem validateImageFile_valid_iff (file : Option File) :
    (validateImageFile file).isValid = true ↔
      ∃ f, file = some f ∧ f.type ∈ validTypes ∧ f.size ≤ 10485760 := by
  cases file with
  | none => simp [validateImageFile]
  | some f =>
    unfold validateImageFile
    by_cases ht : f.type ∈ validTypes
    · by_cases hs : f.size > maxSize
      · have hs2 : ¬ f.size ≤ 10485760 := by
          simp only [maxSize] at hs
          omega
        simp [ht, hs, hs2]
      · have hs2 : f.size ≤ 10485760 := by
          simp only [maxSize] at hs
          omega
        simp [ht, hs, hs2]
    · simp [ht]

theorem validateImageFile_invalid_error (file : Option File)
    (h : (validateImageFile file).isValid = false) :
    ∃ m, (validateImageFile file).error = some m := by
  cases file with
  | none => exact ⟨_, rfl⟩
  | some f =>
    unfold validateImageFile at h ⊢
    by_cases ht : f.type ∈ validTypes
    · by_cases hs : f.size > maxSize
      · simp [ht, hs]
      · simp [ht, hs] at h
    · simp [ht]

/-! ## Claims on the uploader and on the error responses -/

/-- C21: reference definition of the image validator. `validateImageFile`
returns `isValid = true` with `error = null` exactly when the file is present,
its type is one of the five listed types and its size is at most 10485760
bytes; otherwise it returns `isValid = false` with an error that is not
`null`: the missing-file error for a missing file, else the type error
whenever the type is not listed, whatever the size, else the size error. -/
theorem C21_validateImageFile (file : Option File) :
    ((validateImageFile file).isValid = true ↔
      ∃ f, file = some f ∧
        f.type ∈ ["image/jpeg", "image/png", "image/gif", "image/webp", "image/svg+xml"] ∧
        f.size ≤ 10485760) ∧
    ((validateImageFile file).isValid = true → (validateImageFile file).error = none) ∧
    ((validateImageFile file).isValid = false →
      ∃ m, (validateImageFile file).error = some m) ∧
    (file = none → (validateImageFile file).error = some "No file provided") ∧
    (∀ f, file = some f → f.type ∉ validTypes →
      (validateImageFile file).error =
        some "Invalid file type. Please upload a JPEG, PNG, GIF, WebP, or SVG image.") ∧
    (∀ f, file = some f → f.type ∈ validTypes → f.size > 10485760 →
      (validateImageFile file).error =
        some ("File size (" ++ sizeInMB f.size ++ "MB) exceeds the 10MB limit.")) := by
  refine ⟨validateImageFile_valid_iff file, ?_, validateImageFile_invalid_error file, ?_, ?_, ?_⟩
  · intro h
    cases file with
    | none => simp [validateImageFile] at h
    | some f =>
      unfold validateImageFile at h ⊢
      by_cases ht : f.type ∈ validTypes
      · by_cases hs : f.size > maxSize
        · simp [ht, hs] at h
        · simp [ht, hs]
      · simp [ht] at h
  · intro h
    rw [h]
    rfl
  · intro f hf ht
    rw [hf]
    simp [validateImageFile, ht]
  · intro f hf ht hs
    rw [hf]
    have hs2 : f.size > maxSize := hs
    simp [validateImageFile, ht, hs2]

/-- C21 witness: a file of exactly 10485760 bytes passes, one byte more does
not, and a wrong type is reported before the size. -/
theorem C21_validateImageFile_witness :
    (validateImageFile (some { type := "image/png", size := 10485760 })).isValid = true ∧
    (validateImageFile (some { type := "image/png", size := 10485761 })).error
      = some "File size (10.00MB) exceeds the 10MB limit." ∧
    (validateImageFile (some { type := "image/bmp", size := 15728640 })).error
      = some "Invalid file type. Please upload a JPEG, PNG, GIF, WebP, or SVG image." :=
  ⟨(C21_validateImageFile (some { type := "image/png", size := 10485760 })).1.mpr
      ⟨_, rfl, by simp, by decide⟩,
   ((C21_validateImageFile (some { type := "image/png", size := 10485761 })).2.2.2.2.2
      _ rfl (by simp [validTypes]) (by decide)).trans (by decide),
   (C21_validateImageFile (some { type := "image/bmp", size := 15728640 })).2.2.2.2.1
      _ rfl (by simp [validTypes])⟩

/-- A file that is too large or of a type that is not listed is not valid. -/
theorem validateImageFile_bad (f : File) (h : f.size > maxSize ∨ f.type ∉ validTypes) :
    (validateImageFile (some f)).isValid = false := by
  cases hv : (validateImageFile (some f)).isValid with
  | false => rfl
  | true =>
    obtain ⟨g, hg, ht, hs⟩ := (validateImageFile_valid_iff (some f)).mp hv
    cases hg
    rcases h with h | h
    · simp only [maxSize] at h
      omega
    · exact absurd ht h

/-- C22 (as stated, refuted): with no Cloudinary configuration, the upload of a
15 MiB file fails with the configuration error, which is not the validation
error of that file. -/
theorem C22_unconfigured_upload_reports_configuration :
    (uploadToCloudinary sampleEngine { cloudName := none, uploadPreset := none }
      (some { type := "image/png", size := 15728640 })
      { onProgress := false, folder := none } sampleXhr (.networkError "down")).result
      = .rejected configurationMessage ∧
    (validateImageFile (some { type := "image/png", size := 15728640 })).error
      = some "File size (15.00MB) exceeds the 10MB limit." ∧
    configurationMessage ≠ "File size (15.00MB) exceeds the 10MB limit." := by
  refine ⟨rfl, by decide, by decide⟩

/-- C22 (amended): oversized or wrong-type uploads fail locally. For every
file that is larger than 10 MiB or whose type is not listed, the upload makes
no network call and calls `onProgress` never; it is rejected with the
validation error of the file when Cloudinary is configured, and with the
configuration error, whose check comes first, when it is not. -/
theorem C22_invalid_upload_fails_locally (E : Engine) (cfg : CloudinaryConfig) (f : File)
    (options : UploadOptions) (xhr : XhrExchange) (fetched : FetchOutcome)
    (h : f.size > maxSize ∨ f.type ∉ validTypes) :
    (uploadToCloudinary E cfg (some f) options xhr fetched).requests = [] ∧
    (uploadToCloudinary E cfg (some f) options xhr fetched).progressCalls = [] ∧
    (isCloudinaryConfigured cfg = true →
      ∃ m, (validateImageFile (some f)).error = some m ∧
        (uploadToCloudinary E cfg (some f) options xhr fetched).result = .rejected m) ∧
    (isCloudinaryConfigured cfg = false →
      (uploadToCloudinary E cfg (some f) options xhr fetched).result
        = .rejected configurationMessage) := by
  have hv := validateImageFile_bad f h
  obtain ⟨m, hm⟩ := validateImageFile_invalid_error (some f) hv
  by_cases hc : isCloudinaryConfigured cfg = true
  · refine ⟨?_, ?_, ?_, ?_⟩
    · simp [uploadToCloudinary, hc, hv]
    · simp [uploadToCloudinary, hc, hv]
    · intro _
      refine ⟨m, hm, ?_⟩
      simp [uploadToCloudinary, hc, hv, hm]
    · intro hn
      rw [hc] at hn
      cases hn
  · have hc2 : isCloudinaryConfigured cfg = false := by
      cases hh : isCloudinaryConfigured cfg with
      | false => rfl
      | true => exact absurd hh hc
    refine ⟨?_, ?_, ?_, ?_⟩
    · simp [uploadToCloudinary, hc2]
    · simp [uploadToCloudinary, hc2]
    · intro hn
      exact absurd hn hc
    · intro _
      simp [uploadToCloudinary, hc2]

/-- C22 witness: a 15 MiB file with Cloudinary configured. -/
theorem C22_invalid_upload_fails_locally_witness :
    (uploadToCloudinary sampleEngine { cloudName := some "demo", uploadPreset := some "preset" }
      (some { type := "image/png", size := 15728640 })
      { onProgress := true, folder := none } sampleXhr (.networkError "down")).requests = [] ∧
    (uploadToCloudinary sampleEngine { cloudName := some "demo", uploadPreset := some "preset" }
      (some { type := "image/png", size := 15728640 })
      { onProgress := true, folder := none } sampleXhr (.networkError "down")).progressCalls
      = [] :=
  have h := C22_invalid_upload_fails_locally sampleEngine
    { cloudName := some "demo", uploadPreset := some "preset" }
    { type := "image/png", size := 15728640 } { onProgress := true, folder := none }
    sampleXhr (.networkError "down") (Or.inl (by decide))
  ⟨h.1, h.2.1⟩

/-- C23: eager configuration check. `isCloudinaryConfigured` is true exactly
when the cloud name and the upload preset are both defined and not empty; when
it is false, `uploadToCloudinary` is rejected with the configuration error for
every file, valid or not, and every options value, and makes no network
call. -/
theorem C23_configuration_checked_first (E : Engine) (cfg : CloudinaryConfig)
    (file : Option File) (options : UploadOptions) (xhr : XhrExchange)
    (fetched : FetchOutcome) :
    (isCloudinaryConfigured cfg = true ↔
      ∃ name preset, cfg.cloudName = some name ∧ name ≠ "" ∧
        cfg.uploadPreset = some preset ∧ preset ≠ "") ∧
    (isCloudinaryConfigured cfg = false →
      (uploadToCloudinary E cfg file options xhr fetched).result
        = .rejected configurationMessage ∧
      (uploadToCloudinary E cfg file options xhr fetched).requests = [] ∧
      (uploadToCloudinary E cfg file options xhr fetched).progressCalls = []) := by
  constructor
  · obtain ⟨name, preset⟩ := cfg
    cases name <;> cases preset <;> simp [isCloudinaryConfigured, envTruthy]
  · intro h
    simp [uploadToCloudinary, h]

/-- C23 witness: an empty upload preset, with a valid file. -/
theorem C23_configuration_checked_first_witness :
    (uploadToCloudinary sampleEngine { cloudName := some "demo", uploadPreset := some "" }
      (some { type := "image/png", size := 1 }) { onProgress := false, folder := none }
      sampleXhr (.networkError "down")).requests = [] :=
  ((C23_configuration_checked_first sampleEngine
    { cloudName := some "demo", uploadPreset := some "" }
    (some { type := "image/png", size := 1 }) { onProgress := false, folder := none }
    sampleXhr (.networkError "down")).2 rfl).2.1

/-- C24 (defect exhibited): the 500 response of the combined update to a navbar
`[null]` carries the message of the underlying `TypeError` in its `error`
member and the text of the route in its `message` member; the handler does not
read `NODE_ENV`, so this holds in production too, where the error-handling
middleware would leave `error` out. -/
theorem C24_route_catch_reports_error_details :
    (postComponents componentData [("navbar", .arr [.null])]).1.status = 500 ∧
    (postComponents componentData [("navbar", .arr [.null])]).1.error
      = some (.typeError "label") ∧
    (postComponents componentData [("navbar", .arr [.null])]).1.message
      = some "Failed to save component data" ∧
    (errorHandler (some "production") (.typeError "label")).error = none ∧
    (errorHandler (some "production") (.typeError "label")).message
      = some "Internal server error" ∧
    (errorHandler (some "development") (.typeError "label")).error
      = some (.typeError "label") :=
  ⟨rfl, rfl, rfl, rfl, rfl, rfl⟩

/-! ## Claims on the dashboard page and on the agreement of client and store -/

/-- C26 (defect exhibited): with the default context state and the title `New`
typed into the form, the body that `handleSaveToServer` sends still has the
title of the context state of the render, not the one of the form; the setter
calls it queues put the title of the form into the context only
afterwards. -/
theorem C26_save_sends_stale_context :
    field ((((handleSaveToServer sampleEngine sampleClient
        { headerTitle := .str "New", navLinks := defaultNavbar, footerData := defaultFooter }
        "2026-01-01T00:00:00.000Z" (.networkError "down")).1.lookup "header").getD .null))
        "title" = some (.str "Welcome to My Dashboard") ∧
    field (run sampleClient (handleSaveToServer sampleEngine sampleClient
        { headerTitle := .str "New", navLinks := defaultNavbar, footerData := defaultFooter }
        "2026-01-01T00:00:00.000Z" (.networkError "down")).2).copy.header
        "title" = some (.str "New") :=
  ⟨rfl, rfl⟩

/-- C27: the navbar shape is preserved by the combined update and by the
reset. If every navbar element of the record has a string label and a string
url, the same holds after any POST /api/components, whatever its outcome, and
after the reset. -/
theorem C27_navbar_shape_preserved (cd : ComponentData) (body : Body)
    (h : ∀ x ∈ cd.navbar, wellShapedLink x = true) :
    (∀ x ∈ (postComponents cd body).2.navbar, wellShapedLink x = true) ∧
    (∀ x ∈ (deleteReset cd).2.navbar, wellShapedLink x = true) :=
  ⟨postComponents_navShaped cd body h, componentData_navShaped⟩

/-- C27 witness: a combined update that fails with 500 on the startup
record. -/
theorem C27_navbar_shape_preserved_witness :
    (postComponents componentData [("navbar", .arr [.null])]).2.navbar.all wellShapedLink
      = true :=
  List.all_eq_true.mpr (C27_navbar_shape_preserved componentData [("navbar", .arr [.null])]
    componentData_navShaped).1

/-! ## Lemmas on object spread -/

theorem lookup_append (k : String) (xs ys : List (String × Json)) :
    (xs ++ ys).lookup k = (xs.lookup k).orElse (fun _ => ys.lookup k) := by
  induction xs with
  | nil => rfl
  | cons p xs ih =>
    obtain ⟨a, v⟩ := p
    simp only [List.cons_append, List.lookup]
    cases hka : k == a with
    | true => rfl
    | false => exact ih

theorem lookup_none_of_keys (k : String) (u : List (String × Json))
    (h : ∀ p ∈ u, p.1 ≠ k) : u.lookup k = none := by
  induction u with
  | nil => rfl
  | cons p u ih =>
    obtain ⟨a, v⟩ := p
    have ha : a ≠ k := h (a, v) (List.mem_cons_self _ _)
    have hka : (k == a) = false := by
      simp only [beq_eq_false_iff_ne, ne_eq]
      exact fun hk => ha hk.symm
    simp only [List.lookup, hka]
    exact ih (fun q hq => h q (List.mem_cons_of_mem _ hq))

theorem spread_header_same (h : Header) (u : List (String × Json))
    (hu : ∀ p ∈ u, p.1 = "title" ∨ p.1 = "imageUrl") :
    sameObject (objectSpread h.toJson (.obj u))
      (mergeHeader h (u.lookup "title") (u.lookup "imageUrl")).toJson := by
  intro k
  rw [mergeHeader_eq]
  simp only [objectSpread, ownEntries, Header.toJson, field, lookup_append]
  by_cases h1 : k = "title"
  · subst h1
    cases u.lookup "title" <;> rfl
  · by_cases h2 : k = "imageUrl"
    · subst h2
      cases u.lookup "imageUrl" <;> rfl
    · have hn : u.lookup k = none :=
        lookup_none_of_keys k u (fun p hp hk => by
          rcases hu p hp with h | h
          · exact h1 (hk ▸ h)
          · exact h2 (hk ▸ h))
      have b1 : (k == "title") = false := by simpa using h1
      have b2 : (k == "imageUrl") = false := by simpa using h2
      simp [hn, List.lookup, b1, b2]

theorem spread_footer_same (f : Footer) (u : List (String × Json))
    (hu : ∀ p ∈ u, p.1 = "email" ∨ p.1 = "phone" ∨ p.1 = "address") :
    sameObject (objectSpread f.toJson (.obj u))
      (mergeFooter f (u.lookup "email") (u.lookup "phone") (u.lookup "address")).toJson := by
  intro k
  rw [mergeFooter_eq]
  simp only [objectSpread, ownEntries, Footer.toJson, field, lookup_append]
  by_cases h1 : k = "email"
  · subst h1
    cases u.lookup "email" <;> rfl
  · by_cases h2 : k = "phone"
    · subst h2
      cases u.lookup "phone" <;> rfl
    · by_cases h3 : k = "address"
      · subst h3
        cases u.lookup "address" <;> rfl
      · have hn : u.lookup k = none :=
          lookup_none_of_keys k u (fun p hp hk => by
            rcases hu p hp with h | h | h
            · exact h1 (hk ▸ h)
            · exact h2 (hk ▸ h)
            · exact h3 (hk ▸ h))
        have b1 : (k == "email") = false := by simpa using h1
        have b2 : (k == "phone") = false := by simpa using h2
        have b3 : (k == "address") = false := by simpa using h3
        simp [hn, List.lookup, b1, b2, b3]

/-- C28: client and store merges agree on well-formed updates. When the header
of the working copy is the header of the store and the update has no other
keys than `title` and `imageUrl`, the header that the client's `updateHeader`
produces has the same properties as the header that PUT
/api/components/header leaves; likewise for the footer with `email`, `phone`
and `address`. An update with an unknown key makes them differ: the client
keeps the key, the store does not. -/
theorem C28_client_store_merges_agree (c : Client) (cd : ComponentData) :
    (∀ u : List (String × Json), c.copy.header = cd.header.toJson →
      (∀ p ∈ u, (p.1 = "title" ∨ p.1 = "imageUrl") ∧ isStr (some p.2) = true) →
      sameObject (run c (updateHeader (.obj u))).copy.header
        (putHeader cd u).2.header.toJson) ∧
    (∀ u : List (String × Json), c.copy.footer = cd.footer.toJson →
      (∀ p ∈ u, (p.1 = "email" ∨ p.1 = "phone" ∨ p.1 = "address") ∧
        isStr (some p.2) = true) →
      sameObject (run c (updateFooter (.obj u))).copy.footer
        (putFooter cd u).2.footer.toJson) ∧
    (c.copy.header = cd.header.toJson →
      ¬ sameObject (run c (updateHeader (.obj [("alt", .str "x")]))).copy.header
        (putHeader cd [("alt", .str "x")]).2.header.toJson) := by
  refine ⟨?_, ?_, ?_⟩
  · intro u hc hu
    have := spread_header_same cd.header u (fun p hp => (hu p hp).1)
    show sameObject (objectSpread c.copy.header (.obj u)) _
    rw [hc]
    exact this
  · intro u hc hu
    have := spread_footer_same cd.footer u (fun p hp => (hu p hp).1)
    show sameObject (objectSpread c.copy.footer (.obj u)) _
    rw [hc]
    exact this
  · intro hc hsame
    have h := hsame "alt"
    have hl : field (run c (updateHeader (.obj [("alt", .str "x")]))).copy.header "alt"
        = some (.str "x") := rfl
    rw [hl] at h
    cases h

/-- C28 witness: a title-only update of the default header on both sides. -/
theorem C28_client_store_merges_agree_witness :
    sameObject (run sampleClient (updateHeader (.obj [("title", .str "T")]))).copy.header
      (putHeader componentData [("title", .str "T")]).2.header.toJson :=
  (C28_client_store_merges_agree sampleClient componentData).1 [("title", .str "T")] rfl
    (by
      intro p hp
      rw [List.mem_singleton.mp hp]
      exact ⟨Or.inl rfl, rfl⟩)

/-- C29: one set of defaults. The startup record of the store, the record the
reset of the store installs, the working copy the client builds when its three
storage keys are missing, and the working copy the client's `resetToDefaults`
installs are the same record, section by section. -/
theorem C29_one_set_of_defaults (cd : ComponentData) (c : Client) :
    (deleteReset cd).2 = componentData ∧
    initialCopy { dashboardHeader := .missing, dashboardNavbar := .missing,
                  dashboardFooter := .missing } = some componentData.toWorkingCopy ∧
    (run c resetToDefaults).copy = componentData.toWorkingCopy ∧
    componentData.toWorkingCopy
      = { header := defaultHeader, navbar := defaultNavbar, footer := defaultFooter } ∧
    defaultHeader = componentData.header.toJson ∧
    defaultNavbar = .arr componentData.navbar ∧
    defaultFooter = componentData.footer.toJson :=
  ⟨rfl, rfl, rfl, rfl, rfl, rfl, rfl⟩

/-! ## Lemmas on the file selection -/

theorem strStartsWith_of_valid (ty : String) (h : ty ∈ validTypes) :
    strStartsWith ty "image/" = true := by
  simp only [validTypes, List.mem_cons, List.mem_singleton, List.mem_nil_iff, or_false] at h
  rcases h with rfl | rfl | rfl | rfl | rfl <;> decide

/-- C30: the file-selection check of the dashboard is weaker than the upload
validator. Every file that `validateImageFile` accepts is selected by
`handleImageChange` without an error; a file of type `image/bmp` and one byte
is selected by `handleImageChange` too, yet `validateImageFile` rejects it with
the invalid-type error, and so does `uploadToCloudinary`, without a network
call, whenever Cloudinary is configured. -/
theorem C30_selection_weaker_than_validator (s : ImageForm) :
    (∀ f : File, (validateImageFile (some f)).isValid = true →
      handleImageChange s (some f) = { imageFile := some f, uploadError := "" }) ∧
    handleImageChange s (some { type := "image/bmp", size := 1 })
      = { imageFile := some { type := "image/bmp", size := 1 }, uploadError := "" } ∧
    validateImageFile (some { type := "image/bmp", size := 1 })
      = { isValid := false
          error := some
            "Invalid file type. Please upload a JPEG, PNG, GIF, WebP, or SVG image." } ∧
    (∀ (E : Engine) (cfg : CloudinaryConfig) (options : UploadOptions) (xhr : XhrExchange)
      (fetched : FetchOutcome), isCloudinaryConfigured cfg = true →
      (uploadToCloudinary E cfg (some { type := "image/bmp", size := 1 }) options xhr
        fetched).result
        = .rejected "Invalid file type. Please upload a JPEG, PNG, GIF, WebP, or SVG image." ∧
      (uploadToCloudinary E cfg (some { type := "image/bmp", size := 1 }) options xhr
        fetched).requests = []) := by
  refine ⟨?_, rfl, rfl, ?_⟩
  · intro f hv
    obtain ⟨g, hg, ht, hs⟩ := (validateImageFile_valid_iff (some f)).mp hv
    cases hg
    have h1 := strStartsWith_of_valid f.type ht
    have h2 : ¬ f.size > 10 * 1024 * 1024 := by omega
    simp [handleImageChange, h1, h2]
  · intro E cfg options xhr fetched hc
    have hv : (validateImageFile (some { type := "image/bmp", size := 1 })).isValid = false :=
      rfl
    have he : (validateImageFile (some { type := "image/bmp", size := 1 })).error
        = some "Invalid file type. Please upload a JPEG, PNG, GIF, WebP, or SVG image." := rfl
    constructor
    · simp [uploadToCloudinary, hc, hv, he]
    · simp [uploadToCloudinary, hc, hv]

/-- C30 witness: a PNG of one byte passes both checks, and the one-byte BMP is
rejected by the upload with Cloudinary configured. -/
theorem C30_selection_weaker_than_validator_witness :
    handleImageChange { imageFile := none, uploadError := "" }
        (some { type := "image/png", size := 1 })
      = { imageFile := some { type := "image/png", size := 1 }, uploadError := "" } ∧
    (uploadToCloudinary sampleEngine { cloudName := some "demo", uploadPreset := some "preset" }
      (some { type := "image/bmp", size := 1 }) { onProgress := false, folder := none }
      sampleXhr (.networkError "down")).requests = [] :=
  have h := C30_selection_weaker_than_validator { imageFile := none, uploadError := "" }
  ⟨h.1 { type := "image/png", size := 1 } rfl,
   (h.2.2.2 sampleEngine { cloudName := some "demo", uploadPreset := some "preset" }
      { onProgress := false, folder := none } sampleXhr (.networkError "down") rfl).2⟩

/-! ## Lemmas on rounding to doubles -/

theorem roundHalfEven_upper (a b : Nat) (hb : 0 < b) :
    2 * (roundHalfEven a b * b) ≤ 2 * a + b := by
  have h := Nat.div_add_mod a b
  have hr := Nat.mod_lt a hb
  have hq : a / b * b = b * (a / b) := Nat.mul_comm _ _
  unfold roundHalfEven
  split_ifs <;> simp only [Nat.add_mul, Nat.one_mul, hq] <;> omega

theorem roundHalfEven_lower (a b : Nat) (hb : 0 < b) :
    2 * a ≤ 2 * (roundHalfEven a b * b) + b := by
  have h := Nat.div_add_mod a b
  have hr := Nat.mod_lt a hb
  have hq : a / b * b = b * (a / b) := Nat.mul_comm _ _
  unfold roundHalfEven
  split_ifs <;> simp only [Nat.add_mul, Nat.one_mul, hq] <;> omega

/-- A tie is resolved to an even integer. -/
theorem roundHalfEven_tie (a b : Nat) (hb : 0 < b)
    (h : 2 * (roundHalfEven a b * b) = 2 * a + b ∨ 2 * a = 2 * (roundHalfEven a b * b) + b) :
    roundHalfEven a b % 2 = 0 := by
  have hd := Nat.div_add_mod a b
  have hr := Nat.mod_lt a hb
  have hq : a / b * b = b * (a / b) := Nat.mul_comm _ _
  unfold roundHalfEven at h ⊢
  split_ifs at h ⊢ <;> simp only [Nat.add_mul, Nat.one_mul, hq] at h <;> omega

theorem roundHalfEven_multiple (n b : Nat) (hb : 0 < b) : roundHalfEven (n * b) b = n := by
  unfold roundHalfEven
  simp [Nat.mul_mod_left, Nat.mul_div_cancel _ hb, hb]

/-- Rounding to the nearest integer is monotone in the fraction. -/
theorem roundHalfEven_mono (a b c d : Nat) (hb : 0 < b) (hd : 0 < d)
    (h : a * d ≤ c * b) : roundHalfEven a b ≤ roundHalfEven c d := by
  by_contra hlt
  have hlt2 : roundHalfEven c d + 1 ≤ roundHalfEven a b := by omega
  have e1 := Nat.mul_le_mul_right d (roundHalfEven_upper a b hb)
  have e3 := Nat.mul_le_mul_right b (roundHalfEven_lower c d hd)
  have e4 := Nat.mul_le_mul_right (b * d) hlt2
  have x1 : 2 * (roundHalfEven a b * b) * d = 2 * (roundHalfEven a b * (b * d)) := by ring
  have x2 : (2 * a + b) * d = 2 * (a * d) + b * d := by ring
  have x3 : 2 * c * b = 2 * (c * b) := by ring
  have x4 : (2 * (roundHalfEven c d * d) + d) * b = 2 * (roundHalfEven c d * (b * d)) + b * d := by
    ring
  have x5 : (roundHalfEven c d + 1) * (b * d) = roundHalfEven c d * (b * d) + b * d := by ring
  rw [x1, x2] at e1
  rw [x3, x4] at e3
  rw [x5] at e4
  have k1 : 2 * (roundHalfEven a b * (b * d)) = 2 * (a * d) + b * d := by omega
  have k3 : 2 * (c * b) = 2 * (roundHalfEven c d * (b * d)) + b * d := by omega
  have k4 : roundHalfEven c d * (b * d) + b * d = roundHalfEven a b * (b * d) := by omega
  have t1 : 2 * (roundHalfEven a b * b) = 2 * a + b := by
    apply Nat.eq_of_mul_eq_mul_right hd
    rw [x1, x2]
    exact k1
  have t3 : 2 * c = 2 * (roundHalfEven c d * d) + d := by
    apply Nat.eq_of_mul_eq_mul_right hb
    rw [x3, x4]
    exact k3
  have t4 : roundHalfEven c d + 1 = roundHalfEven a b := by
    apply Nat.eq_of_mul_eq_mul_right (Nat.mul_pos hb hd)
    rw [x5]
    exact k4
  have p1 := roundHalfEven_tie a b hb (Or.inl t1)
  have p3 := roundHalfEven_tie c d hd (Or.inr t3)
  omega

theorem scaleUp_spec (a b : Nat) :
    ∀ fuel k : Nat, a * 2 ^ k < 2 ^ 53 * b → 2 ^ 52 * b ≤ a * 2 ^ (k + fuel) →
      2 ^ 52 * b ≤ a * 2 ^ scaleUp a b fuel k ∧ a * 2 ^ scaleUp a b fuel k < 2 ^ 53 * b := by
  intro fuel
  induction fuel with
  | zero => intro k h1 h2; exact ⟨h2, h1⟩
  | succ fuel ih =>
    intro k h1 h2
    unfold scaleUp
    by_cases hc : 2 ^ 52 * b ≤ a * 2 ^ k
    · rw [if_pos hc]
      exact ⟨hc, h1⟩
    · rw [if_neg hc]
      apply ih
      · have e : a * 2 ^ (k + 1) = 2 * (a * 2 ^ k) := by ring
        have e2 : (2 : Nat) ^ 53 * b = 2 * (2 ^ 52 * b) := by ring
        omega
      · have e : k + 1 + fuel = k + (fuel + 1) := by omega
        rw [e]
        exact h2

/-- The double nearest to a positive fraction below `2^53`: the scale that
brings the fraction into the range of 53-bit significands, and the rounded
significand. -/
theorem toDouble_up (a b : Nat) (ha : 0 < a) (hab : a < 2 ^ 53 * b) :
    (toDouble a b).down = 0 ∧
    (toDouble a b).n = roundHalfEven (a * 2 ^ (toDouble a b).up) b ∧
    2 ^ 52 * b ≤ a * 2 ^ (toDouble a b).up ∧
    a * 2 ^ (toDouble a b).up < 2 ^ 53 * b := by
  have h0 : ¬ a = 0 := by omega
  have h1 : ¬ 2 ^ 53 * b ≤ a := by omega
  have hfuel : 2 ^ 52 * b ≤ a * 2 ^ (0 + (b + 52)) := by
    have hb2 : b < 2 ^ b := Nat.lt_two_pow b
    have e : a * 2 ^ (0 + (b + 52)) = a * (2 ^ 52 * 2 ^ b) := by
      rw [Nat.zero_add, Nat.pow_add, Nat.mul_comm (2 ^ b)]
    rw [e]
    calc 2 ^ 52 * b ≤ 2 ^ 52 * 2 ^ b := Nat.mul_le_mul_left _ (Nat.le_of_lt hb2)
      _ = 1 * (2 ^ 52 * 2 ^ b) := (Nat.one_mul _).symm
      _ ≤ a * (2 ^ 52 * 2 ^ b) := Nat.mul_le_mul_right _ ha
  have hs := scaleUp_spec a b (b + 52) 0 (by simpa using hab) hfuel
  have e : toDouble a b =
      { n := roundHalfEven (a * 2 ^ scaleUp a b (b + 52) 0) b
        up := scaleUp a b (b + 52) 0, down := 0 } := by
    unfold toDouble
    rw [if_neg h0, if_neg h1]
  rw [e]
  exact ⟨rfl, rfl, hs.1, hs.2⟩

/-- The significand of such a double has 53 bits. -/
theorem toDouble_up_bounds (a b : Nat) (ha : 0 < a) (hb : 0 < b) (hab : a < 2 ^ 53 * b) :
    2 ^ 52 ≤ (toDouble a b).n ∧ (toDouble a b).n ≤ 2 ^ 53 := by
  obtain ⟨_, hn, hlo, hhi⟩ := toDouble_up a b ha hab
  rw [hn]
  constructor
  · have := roundHalfEven_mono (2 ^ 52 * b) b (a * 2 ^ (toDouble a b).up) b hb hb
      (Nat.mul_le_mul_right b hlo)
    rwa [roundHalfEven_multiple _ b hb] at this
  · have := roundHalfEven_mono (a * 2 ^ (toDouble a b).up) b (2 ^ 53 * b) b hb hb
      (Nat.mul_le_mul_right b (Nat.le_of_lt hhi))
    rwa [roundHalfEven_multiple _ b hb] at this

/-- Rounding to a double is monotone on positive fractions below `2^53`. -/
theorem toDouble_mono (a1 b1 a2 b2 : Nat) (ha1 : 0 < a1) (hb1 : 0 < b1) (ha2 : 0 < a2)
    (hb2 : 0 < b2) (h1 : a1 < 2 ^ 53 * b1) (h2 : a2 < 2 ^ 53 * b2)
    (h : a1 * b2 ≤ a2 * b1) :
    (toDouble a1 b1).n * 2 ^ (toDouble a2 b2).up ≤ (toDouble a2 b2).n * 2 ^ (toDouble a1 b1).up := by
  obtain ⟨_, hn1, hlo1, hhi1⟩ := toDouble_up a1 b1 ha1 h1
  obtain ⟨_, hn2, hlo2, hhi2⟩ := toDouble_up a2 b2 ha2 h2
  obtain ⟨hmin1, hmax1⟩ := toDouble_up_bounds a1 b1 ha1 hb1 h1
  obtain ⟨hmin2, hmax2⟩ := toDouble_up_bounds a2 b2 ha2 hb2 h2
  generalize (toDouble a1 b1).up = k1 at *
  generalize (toDouble a2 b2).up = k2 at *
  generalize (toDouble a1 b1).n = n1 at *
  generalize (toDouble a2 b2).n = n2 at *
  have hk : k2 ≤ k1 := by
    by_contra hlt
    have hk' : k1 + 1 ≤ k2 := by omega
    have hp : 2 ^ (k1 + 1) ≤ 2 ^ k2 := Nat.pow_le_pow_right (by decide) hk'
    -- a2 * 2^k2 * b1 is at least 2^53 * b1 * b2 and less than it
    have s1 : a2 * 2 ^ (k1 + 1) * b1 ≤ a2 * 2 ^ k2 * b1 :=
      Nat.mul_le_mul_right _ (Nat.mul_le_mul_left _ hp)
    have s2 : a1 * b2 * 2 ^ (k1 + 1) ≤ a2 * b1 * 2 ^ (k1 + 1) := Nat.mul_le_mul_right _ h
    have s3 : 2 ^ 52 * b1 * (2 * b2) ≤ a1 * 2 ^ k1 * (2 * b2) := Nat.mul_le_mul_right _ hlo1
    have s4 : a2 * 2 ^ k2 * b1 < 2 ^ 53 * b2 * b1 := Nat.mul_lt_mul_of_pos_right hhi2 hb1
    have y1 : a2 * 2 ^ (k1 + 1) * b1 = a2 * b1 * 2 ^ (k1 + 1) := by ring
    have y2 : a1 * b2 * 2 ^ (k1 + 1) = a1 * 2 ^ k1 * (2 * b2) := by ring
    have y3 : (2 : Nat) ^ 52 * b1 * (2 * b2) = 2 ^ 53 * b2 * b1 := by ring
    omega
  rcases Nat.eq_or_lt_of_le hk with heq | hlt
  · subst heq
    have hm := roundHalfEven_mono (a1 * 2 ^ k2) b1 (a2 * 2 ^ k2) b2 hb1 hb2 (by
      have y1 : a1 * 2 ^ k2 * b2 = a1 * b2 * 2 ^ k2 := by ring
      have y2 : a2 * 2 ^ k2 * b1 = a2 * b1 * 2 ^ k2 := by ring
      rw [y1, y2]
      exact Nat.mul_le_mul_right _ h)
    rw [hn1, hn2]
    exact Nat.mul_le_mul_right _ hm
  · have hp : 2 ^ (k2 + 1) ≤ 2 ^ k1 := Nat.pow_le_pow_right (by decide) hlt
    calc n1 * 2 ^ k2 ≤ 2 ^ 53 * 2 ^ k2 := Nat.mul_le_mul_right _ hmax1
      _ = 2 ^ 52 * 2 ^ (k2 + 1) := by ring
      _ ≤ 2 ^ 52 * 2 ^ k1 := Nat.mul_le_mul_left _ hp
      _ ≤ n2 * 2 ^ k1 := Nat.mul_le_mul_right _ hmin2

/-- An integer below `2^53` is a double. -/
theorem toDouble_integer (l : Nat) (hl : 0 < l) (h : l < 2 ^ 53) :
    (toDouble l 1).down = 0 ∧ (toDouble l 1).n = l * 2 ^ (toDouble l 1).up := by
  obtain ⟨hd, hn, _, _⟩ := toDouble_up l 1 hl (by omega)
  refine ⟨hd, ?_⟩
  rw [hn]
  have := roundHalfEven_multiple (l * 2 ^ (toDouble l 1).up) 1 (by decide)
  rwa [Nat.mul_one] at this

/-- Integer division is monotone in the fraction. -/
theorem div_le_div_of_cross (a b c d : Nat) (hb : 0 < b) (hd : 0 < d) (h : a * d ≤ c * b) :
    a / b ≤ c / d := by
  rw [Nat.le_div_iff_mul_le hd]
  have h1 : a / b * b ≤ a := Nat.div_mul_le_self a b
  have h2 : a / b * b * d ≤ a * d := Nat.mul_le_mul_right d h1
  have h3 : a / b * d * b ≤ c * b := by
    have e : a / b * d * b = a / b * b * d := by ring
    rw [e]
    exact Nat.le_trans h2 h
  exact Nat.le_of_mul_le_mul_right h3 hb

theorem toDouble_one : toDouble 1 1 = { n := 2 ^ 52, up := 52, down := 0 } := by rfl

theorem toDouble_hundred : toDouble 100 1 = { n := 100 * 2 ^ 46, up := 46, down := 0 } := by
  rfl

theorem toDouble_zero (b : Nat) : toDouble 0 b = { n := 0, up := 0, down := 0 } := rfl

/-- The quotient of two positive integers below `2^53`, the first at most the
second, as a double: its fraction is that of the integers. -/
theorem divDouble_args (l t : Nat) (hl : 0 < l) (hl2 : l < 2 ^ 53) (ht : 0 < t)
    (ht2 : t < 2 ^ 53) :
    ∃ c, 0 < c ∧ (toDouble l 1).num * (toDouble t 1).den = l * c ∧
      (toDouble l 1).den * (toDouble t 1).num = t * c := by
  obtain ⟨hd1, hn1⟩ := toDouble_integer l hl hl2
  obtain ⟨hd2, hn2⟩ := toDouble_integer t ht ht2
  refine ⟨2 ^ (toDouble l 1).up * 2 ^ (toDouble t 1).up, Nat.mul_pos (Nat.two_pow_pos _) (Nat.two_pow_pos _), ?_, ?_⟩
  · simp only [Double.num, Double.den, hd1, hn1, Nat.pow_zero, Nat.mul_one]
    ring
  · simp only [Double.num, Double.den, hd2, hn2, Nat.pow_zero, Nat.mul_one]
    ring

/-- The percentage reported for a positive `loaded` at most `total`: the
doubles of the quotient and of the product, with the facts on them. -/
theorem percent_parts (l t : Nat) (hl : 0 < l) (hlt : l ≤ t) (ht2 : t < 2 ^ 53) :
    (divDouble (toDouble l 1) (toDouble t 1)).down = 0 ∧
    0 < (divDouble (toDouble l 1) (toDouble t 1)).n ∧
    (divDouble (toDouble l 1) (toDouble t 1)).n
      ≤ 2 ^ (divDouble (toDouble l 1) (toDouble t 1)).up ∧
    (mulDouble (divDouble (toDouble l 1) (toDouble t 1)) 100).down = 0 ∧
    (mulDouble (divDouble (toDouble l 1) (toDouble t 1)) 100).n
      ≤ 100 * 2 ^ (mulDouble (divDouble (toDouble l 1) (toDouble t 1)) 100).up := by
  have ht : 0 < t := by omega
  have hl2 : l < 2 ^ 53 := by omega
  obtain ⟨c, hc, hA, hB⟩ := divDouble_args l t hl hl2 ht ht2
  have hApos : 0 < l * c := Nat.mul_pos hl hc
  have hBpos : 0 < t * c := Nat.mul_pos ht hc
  have hAB : l * c ≤ t * c := Nat.mul_le_mul_right c hlt
  have hdom : l * c < 2 ^ 53 * (t * c) := by
    have : 1 * (t * c) ≤ 2 ^ 53 * (t * c) := Nat.mul_le_mul_right _ (by decide)
    have h2 : t * c < 2 ^ 53 * (t * c) := by
      have : 2 * (t * c) ≤ 2 ^ 53 * (t * c) := Nat.mul_le_mul_right _ (by decide)
      omega
    omega
  have hq : divDouble (toDouble l 1) (toDouble t 1) = toDouble (l * c) (t * c) := by
    unfold divDouble
    rw [hA, hB]
  rw [hq]
  obtain ⟨hqd, _, _, _⟩ := toDouble_up (l * c) (t * c) hApos hdom
  obtain ⟨hqmin, _⟩ := toDouble_up_bounds (l * c) (t * c) hApos hBpos hdom
  have hqn : 0 < (toDouble (l * c) (t * c)).n :=
    Nat.lt_of_lt_of_le (Nat.two_pow_pos 52) hqmin
  have hq1 : (toDouble (l * c) (t * c)).n ≤ 2 ^ (toDouble (l * c) (t * c)).up := by
    have hm := toDouble_mono (l * c) (t * c) 1 1 hApos hBpos (by decide) (by decide) hdom
      (by decide) (by omega)
    rw [toDouble_one] at hm
    simp only at hm
    have e : (2 : Nat) ^ 52 * 2 ^ (toDouble (l * c) (t * c)).up
        = 2 ^ (toDouble (l * c) (t * c)).up * 2 ^ 52 := Nat.mul_comm _ _
    rw [e] at hm
    exact Nat.le_of_mul_le_mul_right hm (Nat.two_pow_pos 52)
  generalize toDouble (l * c) (t * c) = q at *
  have hpa : 0 < q.num * 100 := by
    simp only [Double.num, hqd, Nat.pow_zero, Nat.mul_one]
    omega
  have hpd : q.num * 100 < 2 ^ 53 * q.den := by
    simp only [Double.num, Double.den, hqd, Nat.pow_zero, Nat.mul_one]
    have : q.n * 100 ≤ 2 ^ q.up * 100 := Nat.mul_le_mul_right _ hq1
    have h3 : 2 ^ q.up * 100 < 2 ^ 53 * 2 ^ q.up := by
      have h4 : 0 < 2 ^ q.up := Nat.two_pow_pos _
      have h5 : 101 * 2 ^ q.up ≤ 2 ^ 53 * 2 ^ q.up := Nat.mul_le_mul_right _ (by decide)
      omega
    omega
  obtain ⟨hpdown, _, _, _⟩ := toDouble_up (q.num * 100) q.den hpa hpd
  have hp100 : (mulDouble q 100).n ≤ 100 * 2 ^ (mulDouble q 100).up := by
    unfold mulDouble
    have hm := toDouble_mono (q.num * 100) q.den 100 1 hpa (Nat.two_pow_pos _) (by decide)
      (by decide) hpd (by decide) (by
        simp only [Double.num, Double.den, hqd, Nat.pow_zero, Nat.mul_one]
        have : q.n * 100 ≤ 2 ^ q.up * 100 := Nat.mul_le_mul_right _ hq1
        omega)
    rw [toDouble_hundred] at hm
    simp only at hm
    have e : 100 * 2 ^ 46 * 2 ^ (toDouble (q.num * 100) q.den).up
        = 100 * 2 ^ (toDouble (q.num * 100) q.den).up * 2 ^ 46 := by ring
    rw [e] at hm
    exact Nat.le_of_mul_le_mul_right hm (Nat.two_pow_pos 46)
  exact ⟨hqd, hqn, hq1, hpdown, hp100⟩

/-- The product by 100 of a double that is positive and at most one stays in
the range that `toDouble_mono` covers. -/
theorem product_domain (q : Double) (hd : q.down = 0) (hn : 0 < q.n) (h1 : q.n ≤ 2 ^ q.up) :
    0 < q.num * 100 ∧ q.num * 100 < 2 ^ 53 * q.den := by
  simp only [Double.num, Double.den, hd, Nat.pow_zero, Nat.mul_one]
  have : q.n * 100 ≤ 2 ^ q.up * 100 := Nat.mul_le_mul_right _ h1
  have h4 : 0 < 2 ^ q.up := Nat.two_pow_pos _
  have h5 : 101 * 2 ^ q.up ≤ 2 ^ 53 * 2 ^ q.up := Nat.mul_le_mul_right _ (by decide)
  omega

theorem percentOf_zero (t : Nat) : percentOf 0 t = 0 := by
  have e1 : divDouble (toDouble 0 1) (toDouble t 1) = { n := 0, up := 0, down := 0 } := by
    unfold divDouble
    rw [toDouble_zero]
    simp only [Double.num, Nat.zero_mul]
    rfl
  unfold percentOf
  rw [e1]
  rfl

/-- The reported percentage is at most 100. -/
theorem percentOf_le (l t : Nat) (hlt : l ≤ t) (ht2 : t < 2 ^ 53) : percentOf l t ≤ 100 := by
  rcases Nat.eq_zero_or_pos l with rfl | hl
  · rw [percentOf_zero]
    exact Nat.zero_le _
  · obtain ⟨_, _, _, hpd, hp⟩ := percent_parts l t hl hlt ht2
    unfold percentOf mathRound
    generalize mulDouble (divDouble (toDouble l 1) (toDouble t 1)) 100 = p at *
    simp only [Double.num, Double.den, hpd, Nat.pow_zero, Nat.mul_one]
    have hpos : 0 < 2 * 2 ^ p.up := Nat.mul_pos (by decide) (Nat.two_pow_pos _)
    have : (2 * p.n + 2 ^ p.up) / (2 * 2 ^ p.up) < 101 := by
      rw [Nat.div_lt_iff_lt_mul hpos]
      have h4 : 0 < 2 ^ p.up := Nat.two_pow_pos _
      omega
    omega

/-- The reported percentage does not decrease when `loaded` grows and `total`
stays. -/
theorem percentOf_mono (l1 l2 t : Nat) (h12 : l1 ≤ l2) (h2t : l2 ≤ t) (ht2 : t < 2 ^ 53) :
    percentOf l1 t ≤ percentOf l2 t := by
  rcases Nat.eq_zero_or_pos l1 with rfl | hl1
  · rw [percentOf_zero]
    exact Nat.zero_le _
  · have hl2 : 0 < l2 := by omega
    have ht : 0 < t := by omega
    obtain ⟨c1, hc1, hA1, hB1⟩ := divDouble_args l1 t hl1 (by omega) ht ht2
    obtain ⟨c2, hc2, hA2, hB2⟩ := divDouble_args l2 t hl2 (by omega) ht ht2
    obtain ⟨hqd1, hqn1, hq11, hpd1, _⟩ := percent_parts l1 t hl1 (by omega) ht2
    obtain ⟨hqd2, hqn2, hq12, hpd2, _⟩ := percent_parts l2 t hl2 h2t ht2
    have dom : ∀ l c : Nat, 0 < c → l ≤ t → l * c < 2 ^ 53 * (t * c) := by
      intro l c hc hl
      have h1 : l * c ≤ t * c := Nat.mul_le_mul_right c hl
      have h2 : 0 < t * c := Nat.mul_pos ht hc
      have h3 : 2 * (t * c) ≤ 2 ^ 53 * (t * c) := Nat.mul_le_mul_right _ (by decide)
      omega
    have hq : (divDouble (toDouble l1 1) (toDouble t 1)).n
          * 2 ^ (divDouble (toDouble l2 1) (toDouble t 1)).up
        ≤ (divDouble (toDouble l2 1) (toDouble t 1)).n
          * 2 ^ (divDouble (toDouble l1 1) (toDouble t 1)).up := by
      unfold divDouble
      rw [hA1, hB1, hA2, hB2]
      apply toDouble_mono _ _ _ _ (Nat.mul_pos hl1 hc1) (Nat.mul_pos ht hc1)
        (Nat.mul_pos hl2 hc2) (Nat.mul_pos ht hc2) (dom l1 c1 hc1 (by omega))
        (dom l2 c2 hc2 h2t)
      have e1 : l1 * c1 * (t * c2) = l1 * (c1 * c2 * t) := by ring
      have e2 : l2 * c2 * (t * c1) = l2 * (c1 * c2 * t) := by ring
      rw [e1, e2]
      exact Nat.mul_le_mul_right _ h12
    unfold percentOf mathRound
    generalize divDouble (toDouble l1 1) (toDouble t 1) = q1 at *
    generalize divDouble (toDouble l2 1) (toDouble t 1) = q2 at *
    obtain ⟨hpa1, hpdom1⟩ := product_domain q1 hqd1 hqn1 hq11
    obtain ⟨hpa2, hpdom2⟩ := product_domain q2 hqd2 hqn2 hq12
    have hp : (mulDouble q1 100).n * 2 ^ (mulDouble q2 100).up
        ≤ (mulDouble q2 100).n * 2 ^ (mulDouble q1 100).up := by
      unfold mulDouble
      apply toDouble_mono _ _ _ _ hpa1 (Nat.two_pow_pos _) hpa2 (Nat.two_pow_pos _) hpdom1 hpdom2
      simp only [Double.num, Double.den, hqd1, hqd2, Nat.pow_zero, Nat.mul_one]
      have e1 : q1.n * 100 * 2 ^ q2.up = q1.n * 2 ^ q2.up * 100 := by ring
      have e2 : q2.n * 100 * 2 ^ q1.up = q2.n * 2 ^ q1.up * 100 := by ring
      rw [e1, e2]
      exact Nat.mul_le_mul_right _ hq
    generalize mulDouble q1 100 = p1 at *
    generalize mulDouble q2 100 = p2 at *
    simp only [Double.num, Double.den, hpd1, hpd2, Nat.pow_zero, Nat.mul_one]
    apply div_le_div_of_cross _ _ _ _ (Nat.mul_pos (by decide) (Nat.two_pow_pos _))
      (Nat.mul_pos (by decide) (Nat.two_pow_pos _))
    have e1 : (2 * p1.n + 2 ^ p1.up) * (2 * 2 ^ p2.up)
        = 4 * (p1.n * 2 ^ p2.up) + 2 * (2 ^ p1.up * 2 ^ p2.up) := by ring
    have e2 : (2 * p2.n + 2 ^ p2.up) * (2 * 2 ^ p1.up)
        = 4 * (p2.n * 2 ^ p1.up) + 2 * (2 ^ p1.up * 2 ^ p2.up) := by ring
    rw [e1, e2]
    omega

/-- For a positive total below `2^53` the argument of `onProgress` is the
finite percentage. -/
theorem progressArgument_finite (ev : ProgressEvent) (ht : 0 < ev.total)
    (ht2 : ev.total < 2 ^ 53) :
    progressArgument ev = .finite (percentOf ev.loaded ev.total) := by
  obtain ⟨_, hn⟩ := toDouble_integer ev.total ht ht2
  have hne : ¬ (toDouble ev.total 1).n = 0 := by
    rw [hn]
    exact Nat.pos_iff_ne_zero.mp (Nat.mul_pos ht (Nat.two_pow_pos _))
  unfold progressArgument percentOf
  rw [if_neg hne]

/-! ## Claim on the progress reports -/

/-- C25 (as stated, refuted): for the event of 29 bytes out of 200 the upload
passes 14 to `onProgress`, while `100 * 29 / 200` rounded is 15: the quotient
`29 / 200` and its product by 100 are rounded to doubles before `Math.round`.
And with totals that change, a `loaded` that grows from 5 to 6 is reported as
50 and then 6. -/
theorem C25_double_rounding_differs :
    (uploadToCloudinary sampleEngine { cloudName := some "demo", uploadPreset := some "preset" }
      (some { type := "image/png", size := 29 }) { onProgress := true, folder := none }
      { progress := [{ lengthComputable := true, loaded := 29, total := 200 }]
        finish := .load 200 (some (.obj [("secure_url", .str "u")])) }
      (.networkError "down")).progressValues = [.finite 14] ∧
    exactPercent 29 200 = 15 ∧
    (uploadToCloudinary sampleEngine { cloudName := some "demo", uploadPreset := some "preset" }
      (some { type := "image/png", size := 29 }) { onProgress := true, folder := none }
      { progress := [{ lengthComputable := true, loaded := 5, total := 10 },
                     { lengthComputable := true, loaded := 6, total := 100 }]
        finish := .load 200 (some (.obj [("secure_url", .str "u")])) }
      (.networkError "down")).progressValues = [.finite 50, .finite 6] := by
  refine ⟨by rfl, by decide, by rfl⟩

/-- C25 (amended): progress reporting. `onProgress` is called only when it is
supplied, only for length-computable progress events of the request, in their
order, all of which come before the event that ends the request. For an event
with `0 <= loaded <= total` and `0 < total < 2^53` the value passed is an
integer in [0,100], the result of `Math.round` on the double product
`(loaded / total) * 100`; for events with one and the same such total and
non-decreasing `loaded` the values passed are non-decreasing. -/
theorem C25_progress_reporting (E : Engine) (cfg : CloudinaryConfig) (file : Option File)
    (options : UploadOptions) (xhr : XhrExchange) (fetched : FetchOutcome) :
    ((uploadToCloudinary E cfg file options xhr fetched).progressCalls = [] ∨
      (uploadToCloudinary E cfg file options xhr fetched).progressCalls
        = xhr.progress.filter (fun ev => ev.lengthComputable)) ∧
    (options.onProgress = false →
      (uploadToCloudinary E cfg file options xhr fetched).progressCalls = []) ∧
    (∀ ev ∈ (uploadToCloudinary E cfg file options xhr fetched).progressCalls,
      ev.lengthComputable = true ∧ ev ∈ xhr.progress) ∧
    (∀ ev ∈ (uploadToCloudinary E cfg file options xhr fetched).progressCalls,
      0 < ev.total → ev.total < 2 ^ 53 → ev.loaded ≤ ev.total →
      progressArgument ev = .finite (percentOf ev.loaded ev.total) ∧
      percentOf ev.loaded ev.total ≤ 100) ∧
    (∀ T : Nat, 0 < T → T < 2 ^ 53 →
      (∀ ev ∈ (uploadToCloudinary E cfg file options xhr fetched).progressCalls,
        ev.total = T ∧ ev.loaded ≤ T) →
      (uploadToCloudinary E cfg file options xhr fetched).progressCalls.Pairwise
        (fun a b => a.loaded ≤ b.loaded) →
      (uploadToCloudinary E cfg file options xhr fetched).progressValues.Pairwise
        JsNumber.le) := by
  have hcases : (uploadToCloudinary E cfg file options xhr fetched).progressCalls = [] ∨
      (options.onProgress = true ∧
        (uploadToCloudinary E cfg file options xhr fetched).progressCalls
          = xhr.progress.filter (fun ev => ev.lengthComputable)) := by
    unfold uploadToCloudinary
    by_cases hc : isCloudinaryConfigured cfg = true
    · by_cases hv : (validateImageFile file).isValid = true
      · cases file with
        | none => simp [hc, hv]
        | some f =>
          by_cases hp : options.onProgress = true
          · right
            simp [hc, hv, hp]
          · left
            simp [hc, hv, hp]
      · left
        simp [hc, hv]
    · left
      simp [hc]
  refine ⟨?_, ?_, ?_, ?_, ?_⟩
  · rcases hcases with h | ⟨_, h⟩
    · exact Or.inl h
    · exact Or.inr h
  · intro hp
    rcases hcases with h | ⟨h1, _⟩
    · exact h
    · rw [hp] at h1
      cases h1
  · intro ev hev
    rcases hcases with h | ⟨_, h⟩
    · rw [h] at hev
      cases hev
    · rw [h] at hev
      have := List.mem_filter.mp hev
      exact ⟨this.2, this.1⟩
  · intro ev _ ht ht2 hle
    exact ⟨progressArgument_finite ev ht ht2, percentOf_le _ _ hle ht2⟩
  · intro T hT hT2 hall hpw
    unfold UploadRun.progressValues
    rw [List.pairwise_map]
    refine List.Pairwise.imp_of_mem ?_ hpw
    intro a b ha hb hab
    obtain ⟨hta, hla⟩ := hall a ha
    obtain ⟨htb, hlb⟩ := hall b hb
    rw [progressArgument_finite a (by omega) (by omega),
      progressArgument_finite b (by omega) (by omega), hta, htb]
    exact percentOf_mono _ _ _ hab hlb hT2

/-- C25 witness: one upload of 200 bytes reported at 29, 100 and 200 bytes. -/
theorem C25_progress_reporting_witness :
    (uploadToCloudinary sampleEngine { cloudName := some "demo", uploadPreset := some "preset" }
      (some { type := "image/png", size := 29 }) { onProgress := true, folder := none }
      { progress := [{ lengthComputable := true, loaded := 29, total := 200 },
                     { lengthComputable := false, loaded := 0, total := 0 },
                     { lengthComputable := true, loaded := 100, total := 200 },
                     { lengthComputable := true, loaded := 200, total := 200 }]
        finish := .load 200 (some (.obj [("secure_url", .str "u")])) }
      (.networkError "down")).progressValues.Pairwise JsNumber.le :=
  (C25_progress_reporting sampleEngine { cloudName := some "demo", uploadPreset := some "preset" }
    (some { type := "image/png", size := 29 }) { onProgress := true, folder := none }
    { progress := [{ lengthComputable := true, loaded := 29, total := 200 },
                   { lengthComputable := false, loaded := 0, total := 0 },
                   { lengthComputable := true, loaded := 100, total := 200 },
                   { lengthComputable := true, loaded := 200, total := 200 }]
      finish := .load 200 (some (.obj [("secure_url", .str "u")])) }
    (.networkError "down")).2.2.2.2 200 (by decide) (by decide)
    (by
      intro ev hev
      have h : ev ∈ [({ lengthComputable := true, loaded := 29, total := 200 } : ProgressEvent),
          { lengthComputable := true, loaded := 100, total := 200 },
          { lengthComputable := true, loaded := 200, total := 200 }] := hev
      simp only [List.mem_cons, List.mem_singleton, List.mem_nil_iff, or_false] at h
      rcases h with rfl | rfl | rfl <;> exact ⟨rfl, by decide⟩)
    (by
      show List.Pairwise (fun a b : ProgressEvent => a.loaded ≤ b.loaded)
        [{ lengthComputable := true, loaded := 29, total := 200 },
         { lengthComputable := true, loaded := 100, total := 200 },
         { lengthComputable := true, loaded := 200, total := 200 }]
      simp)

end Dashboard
